import Mathlib

/-!
Verification development for the gvc dependency-update tool.

The definitions below are a shallow embedding of the Rust sources:
  src/maven/version.rs        (version model: parse, classification, ordering)
  src/maven/repository.rs     (multi-repository resolver)
  src/maven/plugin_portal.rs  (plugin-portal resolver variant)
  src/utils/toml.rs           (catalog document helpers)
  src/agents/dependency_updater.rs and src/agents/update/*  (update orchestration)

External crates are modelled at their documented interface: the semver crate
by a faithful parser/comparator for SemVer 2.0 strings (with the crate's
leading-zero, u64 and identifier rules), toml_edit items by a small tree
type, network and regex effects by explicit function parameters.
-/

namespace Gvc

/-! ### Model of the semver crate (dependency of src/maven/version.rs) -/

/-- A prerelease identifier, numeric or alphanumeric, as in the semver crate. -/
inductive PreId where
  | num (n : Nat)
  | alphanum (s : String)
deriving DecidableEq, Repr

/-- A parsed SemVer 2.0 version, as produced by the semver crate. -/
structure SemVer where
  major : Nat
  minor : Nat
  patch : Nat
  pre : List PreId
  build : List String
deriving DecidableEq, Repr

/-- Digits of a numeral to its value. -/
def parseDigitsNat (cs : List Char) : Nat :=
  cs.foldl (fun acc c => acc * 10 + (c.toNat - 48)) 0

/-- Split a character list on a separator character (Rust str::split with a
char pattern). -/
def splitOnCharAux (sep : Char) : List Char → List Char → List String
  | [], acc => [String.mk acc.reverse]
  | c :: cs, acc =>
    if c = sep then String.mk acc.reverse :: splitOnCharAux sep cs []
    else splitOnCharAux sep cs (c :: acc)

/-- Split a string on a separator character; always yields at least one
(possibly empty) segment, like Rust str::split. -/
def splitOnChar (sep : Char) (s : String) : List String :=
  splitOnCharAux sep s.data []

/-- Rust str::ends_with with a literal suffix. -/
def strEndsWith (s suffixStr : String) : Bool :=
  suffixStr.data.isSuffixOf s.data

/-- Rust str::to_lowercase (ascii fragment, which covers the version strings
this tool handles). -/
def strToLower (s : String) : String :=
  String.mk (s.data.map Char.toLower)

/-- Parse a leading numeric identifier (digits, no leading zero, below 2^64,
mirroring the semver crate's u64 core components). Returns the value and the
remaining characters. -/
def semverCore (cs : List Char) : Option (Nat × List Char) :=
  let digits := cs.takeWhile Char.isDigit
  let rest := cs.drop digits.length
  if digits = [] then none
  else if digits.length > 1 ∧ digits.head? = some '0' then none
  else if parseDigitsNat digits < 2 ^ 64 then some (parseDigitsNat digits, rest)
  else none

/-- Characters allowed in prerelease/build identifiers. -/
def semverIdentChar (c : Char) : Bool := c.isDigit || c.isAlpha || c = '-'

/-- Parse one prerelease identifier (nonempty, alphanumeric charset, numeric
identifiers may not have leading zeros). -/
def parsePreIdent (s : String) : Option PreId :=
  if s.data = [] then none
  else if ¬ s.data.all semverIdentChar then none
  else if s.data.all Char.isDigit then
    if s.data.length > 1 ∧ s.data.head? = some '0' then none
    else some (PreId.num (parseDigitsNat s.data))
  else some (PreId.alphanum s)

/-- Parse one build identifier (nonempty, alphanumeric charset; leading zeros
are allowed here). -/
def parseBuildIdent (s : String) : Option String :=
  if s.data = [] then none
  else if ¬ s.data.all semverIdentChar then none
  else some s

/-- Dot-separated segments of a character list. -/
def splitSegments (cs : List Char) : List String :=
  splitOnChar (Char.ofNat 46) (String.mk cs)

/-- Model of semver::Version::parse: MAJOR.MINOR.PATCH with optional
-PRERELEASE and +BUILD, strict SemVer 2.0 syntax. -/
def semverParse (s : String) : Option SemVer :=
  match semverCore s.data with
  | none => none
  | some (major, r1) =>
    match r1 with
    | '.' :: r2 =>
      match semverCore r2 with
      | none => none
      | some (minor, r3) =>
        match r3 with
        | '.' :: r4 =>
          match semverCore r4 with
          | none => none
          | some (patch, r5) =>
            match r5 with
            | [] => some ⟨major, minor, patch, [], []⟩
            | '-' :: r6 =>
              let preChars := r6.takeWhile (fun c => c != '+')
              let afterPre := r6.drop preChars.length
              match (splitSegments preChars).mapM parsePreIdent with
              | none => none
              | some pre =>
                match afterPre with
                | [] => some ⟨major, minor, patch, pre, []⟩
                | '+' :: r7 =>
                  match (splitSegments r7).mapM parseBuildIdent with
                  | none => none
                  | some build => some ⟨major, minor, patch, pre, build⟩
                | _ => none
            | '+' :: r6 =>
              match (splitSegments r6).mapM parseBuildIdent with
              | none => none
              | some build => some ⟨major, minor, patch, [], build⟩
            | _ => none
        | _ => none
    | _ => none

/-- Compare two prerelease identifiers: numeric below alphanumeric, numeric
by value, alphanumeric by character order. -/
def preIdCmp : PreId → PreId → Ordering
  | PreId.num a, PreId.num b => compare a b
  | PreId.num _, PreId.alphanum _ => Ordering.lt
  | PreId.alphanum _, PreId.num _ => Ordering.gt
  | PreId.alphanum a, PreId.alphanum b => compare a b

/-- Lexicographic comparison of prerelease identifier lists; an exhausted
shorter list is below. -/
def preListCmp : List PreId → List PreId → Ordering
  | [], [] => Ordering.eq
  | [], _ :: _ => Ordering.lt
  | _ :: _, [] => Ordering.gt
  | x :: xs, y :: ys =>
    match preIdCmp x y with
    | Ordering.eq => preListCmp xs ys
    | o => o

/-- SemVer prerelease precedence: an empty prerelease (a release) is above
any nonempty one. -/
def semverPreCmp (a b : List PreId) : Ordering :=
  match a, b with
  | [], [] => Ordering.eq
  | [], _ :: _ => Ordering.gt
  | _ :: _, [] => Ordering.lt
  | _, _ => preListCmp a b

/-- Compare two build identifiers, mirroring the semver crate: all-digit
identifiers sort below others and are compared by length then text. -/
def buildIdentCmp (a b : String) : Ordering :=
  match a.data.all Char.isDigit, b.data.all Char.isDigit with
  | true, true => (compare a.length b.length).then (compare a b)
  | true, false => Ordering.lt
  | false, true => Ordering.gt
  | false, false => compare a b

/-- Lexicographic comparison of build identifier lists. -/
def buildListCmp : List String → List String → Ordering
  | [], [] => Ordering.eq
  | [], _ :: _ => Ordering.lt
  | _ :: _, [] => Ordering.gt
  | x :: xs, y :: ys =>
    match buildIdentCmp x y with
    | Ordering.eq => buildListCmp xs ys
    | o => o

/-- Model of the semver crate's Ord for Version: major, minor, patch,
prerelease precedence, then build metadata as a final tiebreaker. -/
def semverCmp (a b : SemVer) : Ordering :=
  (compare a.major b.major).then
    ((compare a.minor b.minor).then
      ((compare a.patch b.patch).then
        ((semverPreCmp a.pre b.pre).then (buildListCmp a.build b.build))))

/-! ### src/maven/version.rs -/

/-- VersionType from src/maven/version.rs. -/
inductive VersionType where
  | semantic (v : SemVer)
  | numeric (ns : List Nat)
  | snapshot (s : String)
  | unknown (s : String)
deriving DecidableEq, Repr

/-- Version from src/maven/version.rs: original text plus classification. -/
structure Version where
  original : String
  parsed : VersionType
deriving DecidableEq, Repr

/-- Rust u32 FromStr on one dot-separated part: optional leading plus sign,
ascii digits, value below 2^32 (overflow is a parse failure). -/
def parseU32 (part : String) : Option Nat :=
  let cs := match part.data with
    | '+' :: rest => rest
    | cs => cs
  if cs = [] then none
  else if ¬ cs.all Char.isDigit then none
  else if parseDigitsNat cs < 2 ^ 32 then some (parseDigitsNat cs)
  else none

/-- Version::parse_numeric from src/maven/version.rs. -/
def parse_numeric (version : String) : Option (List Nat) :=
  let parts := splitOnChar (Char.ofNat 46) version
  match parts.mapM parseU32 with
  | none => none
  | some numbers => if numbers = [] then none else some numbers

/-- Version::parse from src/maven/version.rs: semver first, then the
-SNAPSHOT suffix, then purely numeric, else unknown. -/
def Version.parse (version : String) : Version :=
  let parsed :=
    match semverParse version with
    | some v => VersionType.semantic v
    | none =>
      if strEndsWith version "-SNAPSHOT" then VersionType.snapshot version
      else
        match parse_numeric version with
        | some numeric => VersionType.numeric numeric
        | none => VersionType.unknown version
  { original := version, parsed := parsed }

/-- The fixed unstable marker set from Version::is_stable. -/
def unstable_markers : List String :=
  ["alpha", "beta", "rc", "snapshot", "dev", "-dev", "+dev", ".dev",
   "m1", "m2", "m3", "eap", "preview", "canary"]

/-- Substring containment on strings (Rust str::contains with a literal). -/
def strContains (haystack needle : String) : Bool :=
  (List.range (haystack.data.length + 1)).any
    (fun i => needle.data.isPrefixOf (haystack.data.drop i))

/-- Version::is_stable from src/maven/version.rs. -/
def Version.is_stable (v : Version) : Bool :=
  let lower := strToLower v.original
  if unstable_markers.any (fun marker => strContains lower marker) then false
  else
    match v.parsed with
    | VersionType.semantic sv => sv.pre.isEmpty
    | VersionType.snapshot _ => false
    | _ => true

/-- The zip loop of Ord for Version in the Numeric/Numeric case: first
non-equal elementwise comparison, if any. -/
def numPairsCmp : List (Nat × Nat) → Option Ordering
  | [] => none
  | (x, y) :: rest =>
    match compare x y with
    | Ordering.eq => numPairsCmp rest
    | o => some o

/-- Numeric/Numeric comparison from Ord for Version: elementwise over the
zip, then by length. -/
def numZipCmp (a b : List Nat) : Ordering :=
  (numPairsCmp (a.zip b)).getD (compare a.length b.length)

/-- The comparison the spec describes for numeric version lists: element-wise
on the common positions, and when one list is a prefix of the other the
shorter one is below. Stated recursively; proven equal to the code's zip
loop. -/
def numLexCmp : List Nat → List Nat → Ordering
  | [], [] => Ordering.eq
  | [], _ :: _ => Ordering.lt
  | _ :: _, [] => Ordering.gt
  | x :: xs, y :: ys =>
    match compare x y with
    | Ordering.eq => numLexCmp xs ys
    | o => o

/-- Ord for Version (cmp) from src/maven/version.rs, with the match arms in
source order. -/
def Version.cmp (a b : Version) : Ordering :=
  match a.parsed, b.parsed with
  | VersionType.semantic x, VersionType.semantic y => semverCmp x y
  | VersionType.numeric x, VersionType.numeric y => numZipCmp x y
  | VersionType.snapshot _, _ => Ordering.lt
  | _, VersionType.snapshot _ => Ordering.gt
  | _, _ => compare a.original b.original

/-- Insert an element into a list before the first strictly greater element;
equal elements keep their original relative order. -/
def insertStable (lt : α → α → Bool) (x : α) : List α → List α
  | [] => [x]
  | y :: ys => if lt x y then x :: y :: ys else y :: insertStable lt x ys

/-- Stable ascending sort (model of Rust's stable slice sort: for an
order-consistent comparator the stable ascending result is unique, so any
stable sort algorithm is a faithful model). -/
def stableSort (lt : α → α → Bool) (l : List α) : List α :=
  l.foldl (fun acc x => insertStable lt x acc) []

/-- VersionComparator::get_latest from src/maven/version.rs: parse, filter to
stable when requested, stable-sort ascending, take the last. -/
def get_latest (versions : List String) (stable_only : Bool) : Option String :=
  let parsed := versions.map Version.parse
  let parsed := if stable_only then parsed.filter Version.is_stable else parsed
  let sorted := stableSort (fun a b => decide (Version.cmp a b = Ordering.lt)) parsed
  sorted.getLast?.map Version.original

/-- VersionComparator::is_newer from src/maven/version.rs. -/
def is_newer (a b : String) : Bool :=
  decide (Version.cmp (Version.parse a) (Version.parse b) = Ordering.gt)

/-- DefaultVersionStrategy::is_upgrade from src/repository/mod.rs. -/
def is_upgrade (current candidate : String) : Bool :=
  is_newer candidate current

/-! ### Error type (src/error.rs, the variants the modelled code uses) -/

/-- GvcError from src/error.rs (the constructors reachable from the modelled
code paths). -/
inductive GvcError where
  | projectValidation (msg : String)
  | tomlParsing (msg : String)
  | io (msg : String)
  | userCancelled
deriving DecidableEq, Repr

/-! ### toml_edit items and src/utils/toml.rs -/

/-- A toml_edit item as used by this code base: a string value, a standard
table, an inline table, or some other value kind (integer, array, ...). -/
inductive TVal where
  | str (s : String)
  | table (kvs : List (String × TVal))
  | inlineTable (kvs : List (String × TVal))
  | other

/-- Item::as_str. -/
def TVal.asStr : TVal → Option String
  | TVal.str s => some s
  | _ => none

/-- Table lookup by key (toml_edit keys are unique; first match). -/
def tableGet : List (String × TVal) → String → Option TVal
  | [], _ => none
  | (k, v) :: rest, key => if k = key then some v else tableGet rest key

/-- Table insert (toml_edit insert: replace the value in place when the key
exists, append otherwise). -/
def tableSet : List (String × TVal) → String → TVal → List (String × TVal)
  | [], key, v => [(key, v)]
  | (k, w) :: rest, key, v =>
    if k = key then (k, v) :: rest else (k, w) :: tableSet rest key v

/-- parse_maven_coordinate from src/maven/repository.rs. -/
def parse_maven_coordinate (coordinate : String) :
    Option (String × String × Option String) :=
  let parts := splitOnChar (Char.ofNat 58) coordinate
  match parts with
  | [g, a] => some (g, a, none)
  | [g, a, v] => some (g, a, some v)
  | _ => none

/-- LibraryDetails from src/utils/toml.rs. -/
structure LibraryDetails where
  group : String
  artifact : String
  version : Option String
  version_ref : Option String

/-- TomlUtils::extract_group_artifact from src/utils/toml.rs: string form,
then module / group+name on inline tables, then the same on tables. -/
def extract_group_artifact (item : TVal) : Option (String × String) :=
  match item with
  | TVal.str s => (parse_maven_coordinate s).map (fun t => (t.1, t.2.1))
  | TVal.inlineTable kvs =>
    match (tableGet kvs "module").bind TVal.asStr with
    | some m => (parse_maven_coordinate m).map (fun t => (t.1, t.2.1))
    | none =>
      match (tableGet kvs "group").bind TVal.asStr,
            (tableGet kvs "name").bind TVal.asStr with
      | some group, some name => some (group, name)
      | _, _ => none
  | TVal.table kvs =>
    match (tableGet kvs "module").bind TVal.asStr with
    | some m => (parse_maven_coordinate m).map (fun t => (t.1, t.2.1))
    | none =>
      match (tableGet kvs "group").bind TVal.asStr,
            (tableGet kvs "name").bind TVal.asStr with
      | some group, some name => some (group, name)
      | _, _ => none
  | _ => none

/-- TomlUtils::extract_version from src/utils/toml.rs. -/
def extract_version (item : TVal) : Option String :=
  match item with
  | TVal.inlineTable kvs => (tableGet kvs "version").bind TVal.asStr
  | TVal.table kvs => (tableGet kvs "version").bind TVal.asStr
  | _ => none

/-- TomlUtils::extract_version_ref from src/utils/toml.rs. -/
def extract_version_ref (item : TVal) : Option String :=
  match item with
  | TVal.inlineTable kvs =>
    match tableGet kvs "version" with
    | some (TVal.inlineTable r) => (tableGet r "ref").bind TVal.asStr
    | _ => none
  | TVal.table kvs =>
    match tableGet kvs "version" with
    | some (TVal.table r) => (tableGet r "ref").bind TVal.asStr
    | some (TVal.inlineTable r) => (tableGet r "ref").bind TVal.asStr
    | _ => none
  | _ => none

/-- TomlUtils::update_version from src/utils/toml.rs: a string item is
replaced wholesale by the new version string, tables get their version field
set, anything else reports false. Returns the new item and whether a change
was applied. -/
def update_version (item : TVal) (new_version : String) : TVal × Bool :=
  match item with
  | TVal.str _ => (TVal.str new_version, true)
  | TVal.inlineTable kvs =>
    (TVal.inlineTable (tableSet kvs "version" (TVal.str new_version)), true)
  | TVal.table kvs =>
    (TVal.table (tableSet kvs "version" (TVal.str new_version)), true)
  | _ => (item, false)

/-- TomlUtils::uses_version_ref from src/utils/toml.rs. -/
def uses_version_ref (item : TVal) (version_key : String) : Bool :=
  match extract_version_ref item with
  | some key => key = version_key
  | none => false

/-- TomlUtils::extract_library_details from src/utils/toml.rs. -/
def extract_library_details (item : TVal) : Option LibraryDetails :=
  match item with
  | TVal.str raw =>
    (parse_maven_coordinate raw).map
      (fun t => { group := t.1, artifact := t.2.1, version := t.2.2, version_ref := none })
  | _ =>
    match extract_group_artifact item with
    | none => none
    | some (group, artifact) =>
      some { group := group, artifact := artifact,
             version := extract_version item,
             version_ref := extract_version_ref item }

/-! ### Update report (src/agents/dependency_updater.rs and update/context.rs) -/

/-- UpdateReport: three name-to-(old, new) maps, modelled as association
lists with replace-or-append insertion (HashMap::insert). -/
structure UpdateReport where
  version_updates : List (String × String × String)
  library_updates : List (String × String × String)
  plugin_updates : List (String × String × String)

/-- Replace-or-append insertion for the report maps. -/
def mapInsert : List (String × String × String) → String → String → String →
    List (String × String × String)
  | [], name, o, n => [(name, o, n)]
  | (k, e) :: rest, name, o, n =>
    if k = name then (k, o, n) :: rest else (k, e) :: mapInsert rest name o n

/-- The empty report (UpdateReport::new). -/
def UpdateReport.empty : UpdateReport := ⟨[], [], []⟩

/-- UpdateReport::add_version_update. -/
def UpdateReport.add_version_update (r : UpdateReport) (name o n : String) : UpdateReport :=
  { r with version_updates := mapInsert r.version_updates name o n }

/-- UpdateReport::add_library_update. -/
def UpdateReport.add_library_update (r : UpdateReport) (name o n : String) : UpdateReport :=
  { r with library_updates := mapInsert r.library_updates name o n }

/-- UpdateReport::add_plugin_update. -/
def UpdateReport.add_plugin_update (r : UpdateReport) (name o n : String) : UpdateReport :=
  { r with plugin_updates := mapInsert r.plugin_updates name o n }

/-- UpdateReport::is_empty. -/
def UpdateReport.is_empty (r : UpdateReport) : Bool :=
  r.version_updates.isEmpty && r.library_updates.isEmpty && r.plugin_updates.isEmpty

/-! ### Interaction protocol (Interaction::confirm in
src/agents/dependency_updater.rs, identical in src/agents/update/interaction.rs) -/

/-- Rust char::is_whitespace (the Unicode White_Space code points). -/
def rustIsWhitespace (c : Char) : Bool :=
  c.toNat ∈ [9, 10, 11, 12, 13, 32, 133, 160, 5760, 8192, 8193, 8194, 8195,
              8196, 8197, 8198, 8199, 8200, 8201, 8202, 8232, 8233, 8239, 8287, 12288]

/-- Rust str::trim. -/
def rustTrim (s : String) : String :=
  String.mk (((s.data.dropWhile rustIsWhitespace).reverse.dropWhile rustIsWhitespace).reverse)

/-- Interaction state: interactivity flag and the sticky apply-all flag. -/
structure Interaction where
  enabled : Bool
  apply_all : Bool
deriving DecidableEq, Repr

/-- The prompt loop of Interaction::confirm: consume user answers until one
is recognized. An exhausted input stream behaves like the empty answer
(read_line at end of input yields an empty line), which is accepted. -/
def confirmLoop (st : Interaction) : List String → Except GvcError (Bool × Interaction × List String)
  | [] => Except.ok (true, st, [])
  | ans :: rest =>
    let decision := strToLower (rustTrim ans)
    if decision = "" ∨ decision = "y" ∨ decision = "yes" then
      Except.ok (true, st, rest)
    else if decision = "n" ∨ decision = "no" then
      Except.ok (false, st, rest)
    else if decision = "a" ∨ decision = "all" then
      Except.ok (true, { st with apply_all := true }, rest)
    else if decision = "q" ∨ decision = "quit" then
      Except.error GvcError.userCancelled
    else
      confirmLoop st rest

/-- Interaction::confirm from src/agents/dependency_updater.rs: in
non-interactive mode accept silently; with apply-all set accept without
prompting; otherwise run the prompt loop. The category/name/old/new
arguments only affect printed output. -/
def Interaction.confirm (st : Interaction) (answers : List String)
    (_category _name _old _new : String) :
    Except GvcError (Bool × Interaction × List String) :=
  if st.enabled = false then Except.ok (true, st, answers)
  else if st.apply_all then Except.ok (true, st, answers)
  else confirmLoop st answers

/-! ### src/maven/repository.rs: the multi-repository resolver -/

/-- Repository from src/gradle/config_parser.rs: name, base URL and group
filter patterns. -/
structure GradleRepository where
  name : String
  url : String
  group_filters : List String

/-- MavenRepository::matches_filters from src/maven/repository.rs. The
behaviour of Regex::new plus Regex::is_match is passed in as regexMatch,
where none models a pattern that fails to compile (such a pattern is
skipped). -/
def matches_filters (regexMatch : String → String → Option Bool)
    (group : String) (filters : List String) : Bool :=
  filters.any (fun pat =>
    match regexMatch pat group with
    | some true => true
    | _ => false)

/-- The size ceiling MAX_METADATA_BYTES from src/maven/repository.rs. -/
def MAX_METADATA_BYTES : Nat := 10 * 1024 * 1024

/-- UTF-8 byte length of a string (Rust str::len). -/
def utf8Len (s : String) : Nat :=
  s.data.foldl (fun n c => n + c.utf8Size) 0

/-- An HTTP response as the modelled code observes it: the status class and
the result of reading the body (text() can fail). -/
structure HttpResponse where
  statusSuccess : Bool
  body : Except Unit String

/-- Rust str::replace of one character by a string (group path building). -/
def replaceChar (s : String) (target : Char) (by_ : String) : String :=
  String.mk (s.data.foldr (fun c acc => if c = target then by_.data ++ acc else c :: acc) [])

/-- The metadata URL built by fetch_all_versions_from_repository:
repo_url/group-with-slashes/artifact/maven-metadata.xml. -/
def mavenMetadataUrl (repo_url group artifact : String) : String :=
  repo_url ++ "/" ++ replaceChar group (Char.ofNat 46) "/" ++ "/" ++ artifact ++ "/maven-metadata.xml"

/-- MavenRepository::fetch_all_versions_from_repository from
src/maven/repository.rs. httpGet models the blocking GET (none = request
error), parseMeta models quick_xml deserialization of maven-metadata.xml
into its version list (none = malformed). A request error or non-success
status yields ok none; a body-read failure, an oversized body, or a parse
failure yields an error. -/
def fetch_all_versions_from_repository
    (httpGet : String → Option HttpResponse)
    (parseMeta : String → Option (List String))
    (repo_url group artifact : String) : Except GvcError (Option (List String)) :=
  let metadata_url := mavenMetadataUrl repo_url group artifact
  match httpGet metadata_url with
  | none => Except.ok none
  | some response =>
    if ¬ response.statusSuccess then Except.ok none
    else
      match response.body with
      | Except.error _ => Except.error (GvcError.io "body read failed")
      | Except.ok text =>
        if utf8Len text > MAX_METADATA_BYTES then
          Except.error (GvcError.io "Maven metadata response exceeded 10MB limit")
        else
          match parseMeta text with
          | none => Except.error (GvcError.tomlParsing "Failed to parse Maven metadata")
          | some versions => Except.ok (some versions)

/-- MavenRepository::fetch_latest_version from src/maven/repository.rs:
iterate the configured repositories in order; skip one whose non-empty
filter list does not match the group; use the first that yields a non-empty
version list; swallow per-repository failures; ok none when nothing is
found. fetchRepo models fetch_all_versions_from_repository applied to the
repository's URL. -/
def fetch_latest_version
    (regexMatch : String → String → Option Bool)
    (fetchRepo : String → Except GvcError (Option (List String)))
    (repositories : List GradleRepository)
    (group : String) (stable_only : Bool) : Except GvcError (Option String) :=
  match repositories with
  | [] => Except.ok none
  | repo :: rest =>
    if repo.group_filters ≠ [] ∧ ¬ matches_filters regexMatch group repo.group_filters then
      fetch_latest_version regexMatch fetchRepo rest group stable_only
    else
      match fetchRepo repo.url with
      | Except.ok (some versions) =>
        if versions ≠ [] then Except.ok (get_latest versions stable_only)
        else fetch_latest_version regexMatch fetchRepo rest group stable_only
      | _ => fetch_latest_version regexMatch fetchRepo rest group stable_only

/-! ### src/maven/plugin_portal.rs: the plugin-portal resolver variant -/

/-- The fixed base URL GRADLE_PLUGIN_PORTAL. -/
def GRADLE_PLUGIN_PORTAL : String := "https://plugins.gradle.org/m2"

/-- PluginPortalClient::fetch_all_plugin_versions from
src/maven/plugin_portal.rs. Same shape as the repository fetch but with the
fixed portal base URL and, notably, no body-size ceiling before parsing. -/
def fetch_all_plugin_versions
    (httpGet : String → Option HttpResponse)
    (parseMeta : String → Option (List String))
    (group artifact : String) : Except GvcError (Option (List String)) :=
  let metadata_url := mavenMetadataUrl GRADLE_PLUGIN_PORTAL group artifact
  match httpGet metadata_url with
  | none => Except.ok none
  | some response =>
    if ¬ response.statusSuccess then Except.ok none
    else
      match response.body with
      | Except.error _ => Except.error (GvcError.io "body read failed")
      | Except.ok text =>
        match parseMeta text with
        | none => Except.error (GvcError.tomlParsing "Failed to parse plugin metadata")
        | some versions => Except.ok (some versions)

/-- The post-processing of fetch_latest_plugin_version on the fetched
version list. -/
def pluginLatestFrom (fetched : Option (List String)) (stable_only : Bool) : Option String :=
  match fetched with
  | some versions => if versions = [] then none else get_latest versions stable_only
  | none => none

/-- PluginPortalClient::fetch_latest_plugin_version from
src/maven/plugin_portal.rs: a plugin id p maps to the coordinate
(group = p, artifact = p ++ ".gradle.plugin") before the metadata fetch. -/
def fetch_latest_plugin_version
    (httpGet : String → Option HttpResponse)
    (parseMeta : String → Option (List String))
    (plugin_id : String) (stable_only : Bool) : Except GvcError (Option String) :=
  let group := plugin_id
  let artifact := plugin_id ++ ".gradle.plugin"
  match fetch_all_plugin_versions httpGet parseMeta group artifact with
  | Except.error e => Except.error e
  | Except.ok fetched => Except.ok (pluginLatestFrom fetched stable_only)

/-! ### The catalog document and the legacy update pipeline
(src/agents/dependency_updater.rs) -/

/-- The parsed version catalog: the three sections the updater reads, each
present as a table or absent. -/
structure TomlDoc where
  versions : Option (List (String × TVal))
  libraries : Option (List (String × TVal))
  plugins : Option (List (String × TVal))

/-- DependencyUpdate from src/agents/dependency_updater.rs. -/
structure DependencyUpdate where
  old_version : String
  new_version : String

/-- The inline uses-this-version test of update_versions_with_context
(src/agents/dependency_updater.rs, the nested as_inline_table/as_table
checks of version.ref against the alias key). -/
def legacy_uses_version (lib_value : TVal) (version_key : String) : Bool :=
  match lib_value with
  | TVal.inlineTable kvs =>
    match tableGet kvs "version" with
    | some (TVal.inlineTable r) =>
      match (tableGet r "ref").bind TVal.asStr with
      | some k => k = version_key
      | none => false
    | _ => false
  | TVal.table kvs =>
    match tableGet kvs "version" with
    | some (TVal.table r) =>
      match (tableGet r "ref").bind TVal.asStr with
      | some k => k = version_key
      | none => false
    | some (TVal.inlineTable r) =>
      match (tableGet r "ref").bind TVal.asStr with
      | some k => k = version_key
      | none => false
    | _ => false
  | _ => false

/-- The inline coordinate extraction of update_versions_with_context:
module (split as a coordinate) or group+name, on inline tables and tables. -/
def legacy_coordinate (lib_value : TVal) : Option (String × String) :=
  match lib_value with
  | TVal.inlineTable kvs =>
    match (tableGet kvs "module").bind TVal.asStr with
    | some m => (parse_maven_coordinate m).map (fun t => (t.1, t.2.1))
    | none =>
      match (tableGet kvs "group").bind TVal.asStr with
      | some group => ((tableGet kvs "name").bind TVal.asStr).map (fun n => (group, n))
      | none => none
  | TVal.table kvs =>
    match (tableGet kvs "module").bind TVal.asStr with
    | some m => (parse_maven_coordinate m).map (fun t => (t.1, t.2.1))
    | none =>
      match (tableGet kvs "group").bind TVal.asStr with
      | some group => ((tableGet kvs "name").bind TVal.asStr).map (fun n => (group, n))
      | none => none
  | _ => none

/-- The representative-library scan of update_versions_with_context: the
first library entry that references the alias and yields a coordinate (a
referencing entry without an extractable coordinate is passed over and the
scan continues). -/
def legacy_find_representative : List (String × TVal) → String → Option (String × String)
  | [], _ => none
  | (_, lib_value) :: rest, version_key =>
    if legacy_uses_version lib_value version_key then
      match legacy_coordinate lib_value with
      | some ga => some ga
      | none => legacy_find_representative rest version_key
    else legacy_find_representative rest version_key

/-- The per-alias loop body of update_versions_with_context: find a
representative, fetch, and apply when the candidate differs, is newer, and
is confirmed. -/
def update_versions_loop
    (fetchLib : String → String → Bool → Except GvcError (Option String))
    (stable_only : Bool) (libraries_data : List (String × TVal)) :
    List (String × String) → TomlDoc → UpdateReport → Interaction → List String →
    Except GvcError (TomlDoc × UpdateReport × Interaction × List String)
  | [], doc, report, st, ans => Except.ok (doc, report, st, ans)
  | (version_key, current_version) :: rest, doc, report, st, ans =>
    match legacy_find_representative libraries_data version_key with
    | none => update_versions_loop fetchLib stable_only libraries_data rest doc report st ans
    | some (group, artifact) =>
      match fetchLib group artifact stable_only with
      | Except.error e => Except.error e
      | Except.ok none =>
        update_versions_loop fetchLib stable_only libraries_data rest doc report st ans
      | Except.ok (some latest) =>
        if latest ≠ current_version ∧ is_newer latest current_version then
          match st.confirm ans "Version" version_key current_version latest with
          | Except.error e => Except.error e
          | Except.ok (accepted, st2, ans2) =>
            if accepted then
              let doc2 := { doc with
                versions := doc.versions.map (fun vs => tableSet vs version_key (TVal.str latest)) }
              update_versions_loop fetchLib stable_only libraries_data rest doc2
                (report.add_version_update version_key current_version latest) st2 ans2
            else
              update_versions_loop fetchLib stable_only libraries_data rest doc report st2 ans2
        else update_versions_loop fetchLib stable_only libraries_data rest doc report st ans

/-- DependencyUpdater::update_versions_with_context from
src/agents/dependency_updater.rs: snapshot the versions and libraries
sections, return unchanged when either is missing or there are no string
aliases, else run the per-alias loop. -/
def update_versions_with_context
    (fetchLib : String → String → Bool → Except GvcError (Option String))
    (doc : TomlDoc) (stable_only : Bool) (report : UpdateReport)
    (st : Interaction) (ans : List String) :
    Except GvcError (TomlDoc × UpdateReport × Interaction × List String) :=
  match doc.versions with
  | none => Except.ok (doc, report, st, ans)
  | some vs =>
    match doc.libraries with
    | none => Except.ok (doc, report, st, ans)
    | some libs =>
      let versions_data := vs.filterMap (fun kv => (kv.2.asStr).map (fun s => (kv.1, s)))
      if versions_data = [] then Except.ok (doc, report, st, ans)
      else update_versions_loop fetchLib stable_only libs versions_data doc report st ans

/-- DependencyUpdater::check_library_update from
src/agents/dependency_updater.rs (the mutating library-section path). Note:
this path applies a fetched candidate whenever it merely differs from the
current version (no is_newer check), subject only to confirmation. -/
def check_library_update
    (fetchLib : String → String → Bool → Except GvcError (Option String))
    (name : String) (lib_value : TVal) (stable_only : Bool)
    (st : Interaction) (ans : List String) :
    Except GvcError (TVal × Option DependencyUpdate × Interaction × List String) :=
  match lib_value with
  | TVal.str s =>
    match parse_maven_coordinate s with
    | some (group, artifact, some current) =>
      (match fetchLib group artifact stable_only with
       | Except.error e => Except.error e
       | Except.ok none => Except.ok (lib_value, none, st, ans)
       | Except.ok (some latest) =>
         if latest ≠ current then
           match st.confirm ans "Library" name current latest with
           | Except.error e => Except.error e
           | Except.ok (accepted, st2, ans2) =>
             if accepted then
               Except.ok (TVal.str (group ++ ":" ++ artifact ++ ":" ++ latest),
                 some ⟨current, latest⟩, st2, ans2)
             else Except.ok (lib_value, none, st2, ans2)
         else Except.ok (lib_value, none, st, ans))
    | _ => Except.ok (lib_value, none, st, ans)
  | TVal.inlineTable kvs =>
    (match (tableGet kvs "module").bind TVal.asStr with
     | some m =>
       match parse_maven_coordinate m with
       | some (g, a, _) => checkInlineVersion fetchLib name kvs g a stable_only st ans
       | none => Except.ok (lib_value, none, st, ans)
     | none =>
       match (tableGet kvs "group").bind TVal.asStr with
       | some group =>
         match (tableGet kvs "name").bind TVal.asStr with
         | some nm => checkInlineVersion fetchLib name kvs group nm stable_only st ans
         | none => Except.ok (lib_value, none, st, ans)
       | none => Except.ok (lib_value, none, st, ans))
  | TVal.table kvs =>
    (match (tableGet kvs "module").bind TVal.asStr with
     | some m =>
       match parse_maven_coordinate m with
       | some (g, a, _) => checkTableVersion fetchLib name kvs g a stable_only st ans
       | none => Except.ok (lib_value, none, st, ans)
     | none => Except.ok (lib_value, none, st, ans))
  | _ => Except.ok (lib_value, none, st, ans)
where
  /-- The shared direct-version branch on an inline table: fetch, compare
  for difference only, confirm, set the version field. -/
  checkInlineVersion (fetchLib : String → String → Bool → Except GvcError (Option String))
      (name : String) (kvs : List (String × TVal)) (group artifact : String)
      (stable_only : Bool) (st : Interaction) (ans : List String) :
      Except GvcError (TVal × Option DependencyUpdate × Interaction × List String) :=
    match (tableGet kvs "version").bind TVal.asStr with
    | some current =>
      (match fetchLib group artifact stable_only with
       | Except.error e => Except.error e
       | Except.ok none => Except.ok (TVal.inlineTable kvs, none, st, ans)
       | Except.ok (some latest) =>
         if latest ≠ current then
           match st.confirm ans "Library" name current latest with
           | Except.error e => Except.error e
           | Except.ok (accepted, st2, ans2) =>
             if accepted then
               Except.ok (TVal.inlineTable (tableSet kvs "version" (TVal.str latest)),
                 some ⟨current, latest⟩, st2, ans2)
             else Except.ok (TVal.inlineTable kvs, none, st2, ans2)
         else Except.ok (TVal.inlineTable kvs, none, st, ans))
    | none => Except.ok (TVal.inlineTable kvs, none, st, ans)
  /-- The same branch on a standard table (reached through module only). -/
  checkTableVersion (fetchLib : String → String → Bool → Except GvcError (Option String))
      (name : String) (kvs : List (String × TVal)) (group artifact : String)
      (stable_only : Bool) (st : Interaction) (ans : List String) :
      Except GvcError (TVal × Option DependencyUpdate × Interaction × List String) :=
    match (tableGet kvs "version").bind TVal.asStr with
    | some current =>
      (match fetchLib group artifact stable_only with
       | Except.error e => Except.error e
       | Except.ok none => Except.ok (TVal.table kvs, none, st, ans)
       | Except.ok (some latest) =>
         if latest ≠ current then
           match st.confirm ans "Library" name current latest with
           | Except.error e => Except.error e
           | Except.ok (accepted, st2, ans2) =>
             if accepted then
               Except.ok (TVal.table (tableSet kvs "version" (TVal.str latest)),
                 some ⟨current, latest⟩, st2, ans2)
             else Except.ok (TVal.table kvs, none, st2, ans2)
         else Except.ok (TVal.table kvs, none, st, ans))
    | none => Except.ok (TVal.table kvs, none, st, ans)

/-- DependencyUpdater::check_library_for_update from
src/agents/dependency_updater.rs (the read-only check path). Unlike the
mutating path above, this one requires is_newer before reporting. -/
def check_library_for_update
    (fetchLib : String → String → Bool → Except GvcError (Option String))
    (lib_value : TVal) (stable_only : Bool) :
    Except GvcError (Option DependencyUpdate) :=
  match lib_value with
  | TVal.str s =>
    (match parse_maven_coordinate s with
     | some (group, artifact, some current) =>
       (match fetchLib group artifact stable_only with
        | Except.error e => Except.error e
        | Except.ok none => Except.ok none
        | Except.ok (some latest) =>
          if latest ≠ current ∧ is_newer latest current then
            Except.ok (some ⟨current, latest⟩)
          else Except.ok none)
     | _ => Except.ok none)
  | TVal.inlineTable kvs =>
    (match checkForUpdateCoordinate kvs with
     | none => Except.ok none
     | some (group, artifact) => checkForUpdateFetch fetchLib kvs group artifact stable_only)
  | TVal.table kvs =>
    (match (tableGet kvs "module").bind TVal.asStr with
     | some m =>
       match parse_maven_coordinate m with
       | some (group, artifact, _) => checkForUpdateFetch fetchLib kvs group artifact stable_only
       | none => Except.ok none
     | none => Except.ok none)
  | _ => Except.ok none
where
  /-- module or group+name on the inline-table branch. -/
  checkForUpdateCoordinate (kvs : List (String × TVal)) : Option (String × String) :=
    match (tableGet kvs "module").bind TVal.asStr with
    | some m => (parse_maven_coordinate m).map (fun t => (t.1, t.2.1))
    | none =>
      match (tableGet kvs "group").bind TVal.asStr with
      | some group => ((tableGet kvs "name").bind TVal.asStr).map (fun n => (group, n))
      | none => none
  /-- fetch and compare with the is_newer guard. -/
  checkForUpdateFetch (fetchLib : String → String → Bool → Except GvcError (Option String))
      (kvs : List (String × TVal)) (group artifact : String) (stable_only : Bool) :
      Except GvcError (Option DependencyUpdate) :=
    match (tableGet kvs "version").bind TVal.asStr with
    | some current =>
      (match fetchLib group artifact stable_only with
       | Except.error e => Except.error e
       | Except.ok none => Except.ok none
       | Except.ok (some latest) =>
         if latest ≠ current ∧ is_newer latest current then
           Except.ok (some ⟨current, latest⟩)
         else Except.ok none)
    | none => Except.ok none

/-- The per-key loop of DependencyUpdater::update_libraries_section. -/
def update_libraries_loop
    (fetchLib : String → String → Bool → Except GvcError (Option String))
    (stable_only : Bool) :
    List String → List (String × TVal) → UpdateReport → Interaction → List String →
    Except GvcError (List (String × TVal) × UpdateReport × Interaction × List String)
  | [], libs, report, st, ans => Except.ok (libs, report, st, ans)
  | key :: restKeys, libs, report, st, ans =>
    match tableGet libs key with
    | none => update_libraries_loop fetchLib stable_only restKeys libs report st ans
    | some lib_value =>
      match check_library_update fetchLib key lib_value stable_only st ans with
      | Except.error e => Except.error e
      | Except.ok (item2, updated, st2, ans2) =>
        let libs2 := tableSet libs key item2
        let report2 := match updated with
          | some u => report.add_library_update key u.old_version u.new_version
          | none => report
        update_libraries_loop fetchLib stable_only restKeys libs2 report2 st2 ans2

/-- DependencyUpdater::update_libraries_section: iterate the snapshot of
keys, checking and updating each entry. -/
def update_libraries_section
    (fetchLib : String → String → Bool → Except GvcError (Option String))
    (libs : List (String × TVal)) (stable_only : Bool)
    (report : UpdateReport) (st : Interaction) (ans : List String) :
    Except GvcError (List (String × TVal) × UpdateReport × Interaction × List String) :=
  update_libraries_loop fetchLib stable_only (libs.map Prod.fst) libs report st ans

/-- DependencyUpdater::check_plugin_update from
src/agents/dependency_updater.rs: only table-shaped plugin entries with a
literal version are considered; version references are skipped; the fetched
candidate must differ AND be newer, then confirmation applies it. -/
def check_plugin_update
    (fetchPlugin : String → Bool → Except GvcError (Option String))
    (name : String) (plugin_value : TVal) (stable_only : Bool)
    (st : Interaction) (ans : List String) :
    Except GvcError (TVal × Option DependencyUpdate × Interaction × List String) :=
  match plugin_value with
  | TVal.table kvs =>
    (match (tableGet kvs "id").bind TVal.asStr with
     | none => Except.ok (plugin_value, none, st, ans)
     | some plugin_id =>
       match tableGet kvs "version" with
       | none => Except.ok (plugin_value, none, st, ans)
       | some version_item =>
         match version_item.asStr with
         | none => Except.ok (plugin_value, none, st, ans)
         | some current =>
           match fetchPlugin plugin_id stable_only with
           | Except.error e => Except.error e
           | Except.ok none => Except.ok (plugin_value, none, st, ans)
           | Except.ok (some latest) =>
             if latest ≠ current ∧ is_newer latest current then
               match st.confirm ans "Plugin" name current latest with
               | Except.error e => Except.error e
               | Except.ok (accepted, st2, ans2) =>
                 if accepted then
                   Except.ok (TVal.table (tableSet kvs "version" (TVal.str latest)),
                     some ⟨current, latest⟩, st2, ans2)
                 else Except.ok (plugin_value, none, st2, ans2)
             else Except.ok (plugin_value, none, st, ans))
  | _ => Except.ok (plugin_value, none, st, ans)

/-- The per-key loop of DependencyUpdater::update_plugins_section. -/
def update_plugins_loop
    (fetchPlugin : String → Bool → Except GvcError (Option String))
    (stable_only : Bool) :
    List String → List (String × TVal) → UpdateReport → Interaction → List String →
    Except GvcError (List (String × TVal) × UpdateReport × Interaction × List String)
  | [], plugs, report, st, ans => Except.ok (plugs, report, st, ans)
  | key :: restKeys, plugs, report, st, ans =>
    match tableGet plugs key with
    | none => update_plugins_loop fetchPlugin stable_only restKeys plugs report st ans
    | some plugin_value =>
      match check_plugin_update fetchPlugin key plugin_value stable_only st ans with
      | Except.error e => Except.error e
      | Except.ok (item2, updated, st2, ans2) =>
        let plugs2 := tableSet plugs key item2
        let report2 := match updated with
          | some u => report.add_plugin_update key u.old_version u.new_version
          | none => report
        update_plugins_loop fetchPlugin stable_only restKeys plugs2 report2 st2 ans2

/-- DependencyUpdater::update_version_catalog from
src/agents/dependency_updater.rs, after the document has been read and
parsed: run the versions pass, then the libraries pass, then the plugins
pass, threading the report and the interaction state; a cancellation or
error anywhere aborts the whole pipeline before the write step. -/
def update_version_catalog
    (fetchLib : String → String → Bool → Except GvcError (Option String))
    (fetchPlugin : String → Bool → Except GvcError (Option String))
    (doc : TomlDoc) (stable_only interactive : Bool) (ans : List String) :
    Except GvcError (TomlDoc × UpdateReport) :=
  let st : Interaction := { enabled := interactive, apply_all := false }
  match update_versions_with_context fetchLib doc stable_only UpdateReport.empty st ans with
  | Except.error e => Except.error e
  | Except.ok (doc, report, st, ans) =>
    match doc.libraries with
    | some libs =>
      (match update_libraries_section fetchLib libs stable_only report st ans with
       | Except.error e => Except.error e
       | Except.ok (libs2, report, st, ans) =>
         let doc := { doc with libraries := some libs2 }
         updatePluginsStep fetchPlugin doc stable_only report st ans)
    | none => updatePluginsStep fetchPlugin doc stable_only report st ans
where
  /-- The plugins pass followed by returning the final document and report. -/
  updatePluginsStep (fetchPlugin : String → Bool → Except GvcError (Option String))
      (doc : TomlDoc) (stable_only : Bool) (report : UpdateReport)
      (st : Interaction) (ans : List String) :
      Except GvcError (TomlDoc × UpdateReport) :=
    match doc.plugins with
    | some plugs =>
      (match update_plugins_loop fetchPlugin stable_only (plugs.map Prod.fst) plugs report st ans with
       | Except.error e => Except.error e
       | Except.ok (plugs2, report, _, _) =>
         Except.ok ({ doc with plugins := some plugs2 }, report))
    | none => Except.ok (doc, report)

/-- update_version_catalog together with the final write step: the document
is written back only when the pipeline succeeded and the report is
non-empty; on any error the file keeps its original contents. Returns the
operation result and the final on-disk document. -/
def run_update_version_catalog
    (fetchLib : String → String → Bool → Except GvcError (Option String))
    (fetchPlugin : String → Bool → Except GvcError (Option String))
    (file : TomlDoc) (stable_only interactive : Bool) (ans : List String) :
    Except GvcError UpdateReport × TomlDoc :=
  match update_version_catalog fetchLib fetchPlugin file stable_only interactive ans with
  | Except.ok (doc, report) =>
    (Except.ok report, if report.is_empty then file else doc)
  | Except.error e => (Except.error e, file)

/-! ### VersionHandler (src/agents/update/handlers/version_handler.rs) -/

/-- The representative-library scan of VersionHandler::update: find_map over
the library entries, keeping the first that references the alias and whose
details (hence coordinate) extract; a referencing entry without extractable
details yields none for that entry and the scan continues. -/
def vh_find_representative (libraries_data : List (String × TVal)) (version_key : String) :
    Option (String × String) :=
  libraries_data.findSome? (fun p =>
    if uses_version_ref p.2 version_key then
      (extract_library_details p.2).map (fun d => (d.group, d.artifact))
    else none)

/-- The per-alias loop of VersionHandler::update: resolve the representative
coordinate, fetch the latest, and when it differs, is an upgrade, and is
confirmed, rewrite the alias entry through TomlUtils::update_version and
record the change under the alias name. -/
def version_handler_loop
    (fetchLib : String → String → Bool → Except GvcError (Option String))
    (stable_only : Bool) (libraries_data : List (String × TVal)) :
    List (String × String) → TomlDoc → UpdateReport → Interaction → List String →
    Except GvcError (TomlDoc × UpdateReport × Interaction × List String)
  | [], doc, report, st, ans => Except.ok (doc, report, st, ans)
  | (version_key, current_version) :: rest, doc, report, st, ans =>
    match vh_find_representative libraries_data version_key with
    | none => version_handler_loop fetchLib stable_only libraries_data rest doc report st ans
    | some (group, artifact) =>
      match fetchLib group artifact stable_only with
      | Except.error e => Except.error e
      | Except.ok none =>
        version_handler_loop fetchLib stable_only libraries_data rest doc report st ans
      | Except.ok (some latest) =>
        if latest ≠ current_version ∧ is_upgrade current_version latest then
          match st.confirm ans "Version" version_key current_version latest with
          | Except.error e => Except.error e
          | Except.ok (accepted, st2, ans2) =>
            if accepted then
              match doc.versions with
              | some vs =>
                (match tableGet vs version_key with
                 | some entry =>
                   let doc2 := { doc with
                     versions := some (tableSet vs version_key (update_version entry latest).1) }
                   version_handler_loop fetchLib stable_only libraries_data rest doc2
                     (report.add_version_update version_key current_version latest) st2 ans2
                 | none =>
                   version_handler_loop fetchLib stable_only libraries_data rest doc report st2 ans2)
              | none =>
                version_handler_loop fetchLib stable_only libraries_data rest doc report st2 ans2
            else
              version_handler_loop fetchLib stable_only libraries_data rest doc report st2 ans2
        else version_handler_loop fetchLib stable_only libraries_data rest doc report st ans

/-- VersionHandler::update from src/agents/update/handlers/version_handler.rs:
snapshot the alias and library data, return an empty report when either
section is missing or no alias is a string, else run the loop with a fresh
report. -/
def version_handler_update
    (fetchLib : String → String → Bool → Except GvcError (Option String))
    (doc : TomlDoc) (stable_only : Bool) (st : Interaction) (ans : List String) :
    Except GvcError (TomlDoc × UpdateReport × Interaction × List String) :=
  match doc.versions with
  | none => Except.ok (doc, UpdateReport.empty, st, ans)
  | some vs =>
    match doc.libraries with
    | none => Except.ok (doc, UpdateReport.empty, st, ans)
    | some libs =>
      let versions_data := vs.filterMap (fun kv => (kv.2.asStr).map (fun s => (kv.1, s)))
      if versions_data = [] then Except.ok (doc, UpdateReport.empty, st, ans)
      else version_handler_loop fetchLib stable_only libs versions_data doc
        UpdateReport.empty st ans

/-! ### Targeted updates (src/agents/dependency_updater.rs lines 1141-1397) -/

/-- VersionEntry from src/agents/dependency_updater.rs. -/
structure VersionEntry where
  value : String
  is_stable : Bool
  is_current : Bool
deriving DecidableEq, Repr

/-- DependencyUpdater::fetch_versions_for_candidate, applied to the version
list the resolver returned (descending order) and the candidate's current
version: tag each raw version with stability and currentness. The legacy
path does not filter by stable_only here. -/
def fetch_versions_for_candidate (available : List String) (current_version : String) :
    List VersionEntry :=
  available.map (fun raw =>
    { value := raw,
      is_stable := (Version.parse raw).is_stable,
      is_current := current_version = raw })

/-- DependencyUpdater::select_default_version from
src/agents/dependency_updater.rs: in stable-only mode try the first stable
non-current entry, then fall back (in either mode) to the first non-current
entry in list order. -/
def select_default_version (versions : List VersionEntry) (stable_only : Bool) : Option String :=
  if stable_only then
    match versions.find? (fun entry => entry.is_stable && !entry.is_current) with
    | some entry => some entry.value
    | none => (versions.find? (fun entry => !entry.is_current)).map VersionEntry.value
  else (versions.find? (fun entry => !entry.is_current)).map VersionEntry.value

/-- The non-interactive tail of update_targeted_dependency: the auto-selected
version, with no selection and a selection equal to the current version both
collapsing to no change. -/
def targeted_auto_choice (entries : List VersionEntry) (stable_only : Bool)
    (current_version : String) : Option String :=
  match select_default_version entries stable_only with
  | none => none
  | some version => if version = current_version then none else some version

/-- The report produced by the non-interactive targeted flow for a library
candidate: empty when nothing was chosen, a single library entry otherwise
(apply_target_update's report fold). -/
def targeted_auto_report (name : String) (entries : List VersionEntry)
    (stable_only : Bool) (current_version : String) : UpdateReport :=
  match targeted_auto_choice entries stable_only current_version with
  | none => UpdateReport.empty
  | some version => UpdateReport.empty.add_library_update name current_version version

/-- TargetedHandler::apply_library_version from
src/agents/update/handlers/targeted_handler.rs (same code as
DependencyUpdater::apply_library_version): a string entry is rewritten to
the full group:artifact:new-version coordinate, tables get their version
field replaced, and an unrecognized shape is a loud unsupported-shape
error. -/
def apply_library_version (item : TVal) (group artifact new_version : String) :
    Except GvcError TVal :=
  match item with
  | TVal.str _ =>
    Except.ok (TVal.str (group ++ ":" ++ artifact ++ ":" ++ new_version))
  | TVal.inlineTable kvs =>
    Except.ok (TVal.inlineTable (tableSet kvs "version" (TVal.str new_version)))
  | TVal.table kvs =>
    Except.ok (TVal.table (tableSet kvs "version" (TVal.str new_version)))
  | _ => Except.error (GvcError.tomlParsing "Unsupported library format for targeted update")

/-! ### Pattern matcher (PatternMatcher in src/agents/dependency_updater.rs,
identical in src/agents/update/handlers/targeted_handler.rs) -/

/-- The characters compile_glob escapes (regex metacharacters). -/
def compile_glob_escape_chars : List Char :=
  ['.', '+', '(', ')', '|', '^', '$', '[', ']', '\\', Char.ofNat 123, Char.ofNat 125]

/-- PatternMatcher::compile_glob from src/agents/dependency_updater.rs: the
literal regex text built from the glob, case-insensitive and fully
anchored. -/
def compile_glob (pattern : String) : String :=
  "(?i)^" ++ String.mk (pattern.data.foldr (fun ch acc =>
    if ch = '*' then '.' :: '*' :: acc
    else if ch = '?' then '.' :: acc
    else if ch ∈ compile_glob_escape_chars then '\\' :: ch :: acc
    else ch :: acc) []) ++ "$"

/-- Fuel-driven interpreter for the glob language compile_glob translates:
star matches any run, question mark any one character, other characters
case-insensitively, anchored at both ends. Every step shortens the combined
input, so pattern length plus text length plus one is always enough fuel. -/
def globMatchFuel : Nat → List Char → List Char → Bool
  | 0, _, _ => false
  | _ + 1, pat, str =>
    match pat, str with
    | [], [] => true
    | '*' :: ps, [] => globMatchFuel (ps.length + 1) ps []
    | _ :: _, [] => false
    | [], _ :: _ => false
    | '*' :: ps, c :: cs =>
      globMatchFuel (ps.length + (c :: cs).length + 1) ps (c :: cs)
      || globMatchFuel (('*' :: ps).length + cs.length + 1) ('*' :: ps) cs
    | '?' :: ps, _ :: cs => globMatchFuel (ps.length + cs.length + 1) ps cs
    | p :: ps, c :: cs =>
      (p.toLower = c.toLower) && globMatchFuel (ps.length + cs.length + 1) ps cs

/-- Anchored case-insensitive glob match: the semantics of the regex
compile_glob produces. -/
def globMatch (pat str : List Char) : Bool :=
  globMatchFuel (pat.length + str.length + 1) pat str

/-- The compiled matcher: the regex text produced by compile_glob (on which
Regex::new always succeeds, since every metacharacter is escaped) together
with the adjusted glob that gives its matching semantics. -/
structure PatternMatcher where
  regex : String
  glob : String

/-- PatternMatcher::matches. -/
def PatternMatcher.matches (m : PatternMatcher) (value : String) : Bool :=
  globMatch m.glob.data value.data

/-- PatternMatcher::new from src/agents/dependency_updater.rs: reject an
empty trimmed pattern with a validation error; wrap a glob-free pattern as a
substring search; compile. -/
def pattern_matcher_new (pattern : String) : Except GvcError PatternMatcher :=
  let trimmed := rustTrim pattern
  if trimmed = "" then
    Except.error (GvcError.projectValidation "Filter pattern cannot be empty")
  else
    let adjusted :=
      if trimmed.data.any (fun c => c = '*' ∨ c = '?') then trimmed
      else "*" ++ trimmed ++ "*"
    Except.ok { regex := compile_glob adjusted, glob := adjusted }

/-! ### Candidate collection (TargetedHandler::collect_candidates) -/

/-- TargetKind from the targeted handlers. -/
inductive TargetKind where
  | versionAlias (group artifact : String)
  | library (group artifact : String)
  | plugin (plugin_id : String)

/-- TargetCandidate from the targeted handlers. -/
structure TargetCandidate where
  name : String
  current_version : String
  kind : TargetKind

/-- TargetCandidate::display_name (quote glyphs of the display text elided;
only used as a sort key here). -/
def display_name (c : TargetCandidate) : String :=
  match c.kind with
  | TargetKind.versionAlias group artifact =>
    "version alias " ++ c.name ++ " (" ++ group ++ ":" ++ artifact ++ ")"
  | TargetKind.library group artifact =>
    "library " ++ c.name ++ " (" ++ group ++ ":" ++ artifact ++ ")"
  | TargetKind.plugin plugin_id =>
    "plugin " ++ c.name ++ " (" ++ plugin_id ++ ")"

/-- TargetedHandler::build_library_candidate. -/
def build_library_candidate (name : String) (item : TVal) : Option TargetCandidate :=
  match extract_library_details item with
  | none => none
  | some details =>
    match details.version with
    | none => none
    | some current =>
      some { name := name, current_version := current,
             kind := TargetKind.library details.group details.artifact }

/-- TargetedHandler::build_plugin_candidate. -/
def build_plugin_candidate (name : String) (item : TVal) : Option TargetCandidate :=
  match item with
  | TVal.table kvs =>
    (match (tableGet kvs "id").bind TVal.asStr with
     | none => none
     | some plugin_id =>
       ((tableGet kvs "version").bind TVal.asStr).map (fun current =>
         { name := name, current_version := current,
           kind := TargetKind.plugin plugin_id }))
  | TVal.inlineTable kvs =>
    (match (tableGet kvs "id").bind TVal.asStr with
     | none => none
     | some plugin_id =>
       ((tableGet kvs "version").bind TVal.asStr).map (fun current =>
         { name := name, current_version := current,
           kind := TargetKind.plugin plugin_id }))
  | _ => none

/-- TargetedHandler::find_representative_coordinate: first library entry that
references the alias and has an extractable coordinate. -/
def find_representative_coordinate : List (String × TVal) → String → Option (String × String)
  | [], _ => none
  | (_, lib_value) :: rest, version_key =>
    if uses_version_ref lib_value version_key then
      match extract_group_artifact lib_value with
      | some ga => some ga
      | none => find_representative_coordinate rest version_key
    else find_representative_coordinate rest version_key

/-- TargetedHandler::collect_candidates: matching library entries, then
matching alias entries backed by a representative library, then matching
plugin entries, sorted by display name. -/
def collect_candidates (doc : TomlDoc) (matcher : PatternMatcher) : List TargetCandidate :=
  let libsTable := doc.libraries.getD []
  let libCands := (doc.libraries.getD []).filterMap (fun p =>
    if matcher.matches p.1 then build_library_candidate p.1 p.2 else none)
  let verCands := (doc.versions.getD []).filterMap (fun p =>
    if matcher.matches p.1 then
      match p.2.asStr with
      | some current =>
        (find_representative_coordinate libsTable p.1).map (fun ga =>
          { name := p.1, current_version := current,
            kind := TargetKind.versionAlias ga.1 ga.2 })
      | none => none
    else none)
  let plugCands := (doc.plugins.getD []).filterMap (fun p =>
    if matcher.matches p.1 then build_plugin_candidate p.1 p.2 else none)
  stableSort (fun a b => decide (display_name a < display_name b))
    (libCands ++ verCands ++ plugCands)

/-- The opening of update_targeted_dependency (and TargetedHandler::update):
build the matcher from the pattern, then enumerate candidates — a pattern
the matcher constructor rejects aborts before any enumeration. -/
def targeted_update_candidates (doc : TomlDoc) (pattern : String) :
    Except GvcError (List TargetCandidate) :=
  match pattern_matcher_new pattern with
  | Except.error e => Except.error e
  | Except.ok matcher => Except.ok (collect_candidates doc matcher)

/-- Stated from the claim's words, for comparison with the representative
the code actually picks: the first library entry, in enumeration order,
whose version is a reference to the alias name — with no requirement that a
coordinate be extractable from it. -/
def specFirstReferencingLibrary (libraries_data : List (String × TVal)) (version_key : String) :
    Option (String × TVal) :=
  libraries_data.find? (fun p => uses_version_ref p.2 version_key)

end Gvc

namespace Gvc

/-! ## Supporting lemmas -/

/-- Successor on both sides leaves a Nat comparison unchanged. -/
theorem compare_succ_succ (m n : Nat) : compare (m + 1) (n + 1) = compare m n := by
  rw [Nat.compare_def_lt, Nat.compare_def_lt]
  simp [Nat.succ_lt_succ_iff]

/-- The zip-then-length loop of the code equals the recursive element-wise
comparison of the spec. -/
theorem numZipCmp_eq_numLexCmp (a b : List Nat) : numZipCmp a b = numLexCmp a b := by
  induction a generalizing b with
  | nil =>
    cases b with
    | nil => simp [numZipCmp, numPairsCmp, numLexCmp]; decide
    | cons y ys =>
      simp [numZipCmp, numPairsCmp, numLexCmp]
      exact Nat.compare_eq_lt.2 (Nat.succ_pos ys.length)
  | cons x xs ih =>
    cases b with
    | nil =>
      simp [numZipCmp, numPairsCmp, numLexCmp]
      exact Nat.compare_eq_gt.2 (Nat.succ_pos xs.length)
    | cons y ys =>
      simp only [numZipCmp, List.zip_cons_cons, numPairsCmp, numLexCmp]
      cases h : compare x y with
      | eq =>
        simpa [numZipCmp, List.length_cons, compare_succ_succ] using ih ys
      | lt => rfl
      | gt => rfl

/-! ## Claim theorems -/

/-- C1: the claim asks that parse-then-cmp be a strict total order consistent
with textual equality, reflexively Equal on every parsed version, and in
particular when both inputs are Snapshots. The code violates this: the match
arm for a Snapshot on the left fires before the right side is examined, so
two Snapshot-classified versions always compare Less — cmp (v, v) is Less,
not Equal, for a Snapshot v, and cmp is Less in both orders for two distinct
Snapshots. -/
theorem c1_snapshot_cmp_violates_total_order :
    Version.cmp (Version.parse "1.0-SNAPSHOT") (Version.parse "1.0-SNAPSHOT") = Ordering.lt
    ∧ Version.parse "1.0-SNAPSHOT" = Version.parse "1.0-SNAPSHOT"
    ∧ Version.cmp (Version.parse "1.0-SNAPSHOT") (Version.parse "2.0-SNAPSHOT") = Ordering.lt
    ∧ Version.cmp (Version.parse "2.0-SNAPSHOT") (Version.parse "1.0-SNAPSHOT") = Ordering.lt := by
  refine ⟨by decide, rfl, by decide, by decide⟩

/-- C9: the comparison on parsed versions follows the specified case
analysis. Semantic against Semantic is semver precedence; Numeric against
Numeric is element-wise then by length with a shorter prefix below; a
Snapshot is below any non-Snapshot classification (and the converse above);
two values of different non-Snapshot classifications compare by the text
order of their originals; and the two quoted examples hold. -/
theorem c9_cmp_case_analysis :
    (∀ (oa ob : String) (x y : SemVer),
      Version.cmp ⟨oa, VersionType.semantic x⟩ ⟨ob, VersionType.semantic y⟩ = semverCmp x y)
    ∧ (∀ (oa ob : String) (xs ys : List Nat),
      Version.cmp ⟨oa, VersionType.numeric xs⟩ ⟨ob, VersionType.numeric ys⟩ = numLexCmp xs ys)
    ∧ (∀ (oa ob s : String) (x : SemVer),
      Version.cmp ⟨oa, VersionType.snapshot s⟩ ⟨ob, VersionType.semantic x⟩ = Ordering.lt
      ∧ Version.cmp ⟨ob, VersionType.semantic x⟩ ⟨oa, VersionType.snapshot s⟩ = Ordering.gt)
    ∧ (∀ (oa ob s : String) (xs : List Nat),
      Version.cmp ⟨oa, VersionType.snapshot s⟩ ⟨ob, VersionType.numeric xs⟩ = Ordering.lt
      ∧ Version.cmp ⟨ob, VersionType.numeric xs⟩ ⟨oa, VersionType.snapshot s⟩ = Ordering.gt)
    ∧ (∀ (oa ob s u : String),
      Version.cmp ⟨oa, VersionType.snapshot s⟩ ⟨ob, VersionType.unknown u⟩ = Ordering.lt
      ∧ Version.cmp ⟨ob, VersionType.unknown u⟩ ⟨oa, VersionType.snapshot s⟩ = Ordering.gt)
    ∧ (∀ (oa ob : String) (x : SemVer) (ys : List Nat),
      Version.cmp ⟨oa, VersionType.semantic x⟩ ⟨ob, VersionType.numeric ys⟩ = compare oa ob
      ∧ Version.cmp ⟨ob, VersionType.numeric ys⟩ ⟨oa, VersionType.semantic x⟩ = compare ob oa)
    ∧ (∀ (oa ob u : String) (x : SemVer),
      Version.cmp ⟨oa, VersionType.semantic x⟩ ⟨ob, VersionType.unknown u⟩ = compare oa ob
      ∧ Version.cmp ⟨ob, VersionType.unknown u⟩ ⟨oa, VersionType.semantic x⟩ = compare ob oa)
    ∧ (∀ (oa ob u : String) (xs : List Nat),
      Version.cmp ⟨oa, VersionType.numeric xs⟩ ⟨ob, VersionType.unknown u⟩ = compare oa ob
      ∧ Version.cmp ⟨ob, VersionType.unknown u⟩ ⟨oa, VersionType.numeric xs⟩ = compare ob oa)
    ∧ Version.cmp (Version.parse "1.0.0") (Version.parse "1.0") = Ordering.gt
    ∧ Version.cmp (Version.parse "1.0.0") (Version.parse "1.0.0-SNAPSHOT") = Ordering.gt := by
  refine ⟨fun _ _ _ _ => rfl,
    fun _ _ xs ys => numZipCmp_eq_numLexCmp xs ys,
    fun _ _ _ _ => ⟨rfl, rfl⟩,
    fun _ _ _ _ => ⟨rfl, rfl⟩,
    fun _ _ _ _ => ⟨rfl, rfl⟩,
    fun _ _ _ _ => ⟨rfl, rfl⟩,
    fun _ _ _ _ => ⟨rfl, rfl⟩,
    fun _ _ _ _ => ⟨rfl, rfl⟩,
    by decide, by decide⟩

/-- C2 counterexample: on the single-string shape, TomlUtils::update_version
does not rewrite the coordinate to group:artifact:new-version — it overwrites
the whole string with just the bare new version, losing group and artifact;
and on an unrecognized shape it returns false with the item unchanged rather
than signalling an unsupported-shape failure. -/
theorem c2_counterexample_update_version_string_shape :
    (update_version (TVal.str "com.test:artifact:1.0.0") "2.0.0").1 = TVal.str "2.0.0"
    ∧ (update_version (TVal.str "com.test:artifact:1.0.0") "2.0.0").2 = true
    ∧ TVal.str "2.0.0" ≠ TVal.str "com.test:artifact:2.0.0"
    ∧ update_version TVal.other "2.0.0" = (TVal.other, false) := by
  refine ⟨rfl, rfl, ?_, rfl⟩
  intro h
  injection h with h2
  exact absurd h2 (by decide)

/-- C2 amended: TomlUtils::update_version replaces a string-shaped item
wholesale with the bare new version string, replaces only the version field
of either table shape, and returns false (no loud failure) on an
unrecognized shape; the coordinate-preserving group:artifact:new-version
rewrite and the loud unsupported-shape error live in the targeted handler's
apply_library_version instead. -/
theorem c2_version_mutation_amended :
    (∀ (s v : String), update_version (TVal.str s) v = (TVal.str v, true))
    ∧ (∀ (kvs : List (String × TVal)) (v : String),
        update_version (TVal.inlineTable kvs) v
          = (TVal.inlineTable (tableSet kvs "version" (TVal.str v)), true))
    ∧ (∀ (kvs : List (String × TVal)) (v : String),
        update_version (TVal.table kvs) v
          = (TVal.table (tableSet kvs "version" (TVal.str v)), true))
    ∧ (∀ (v : String), update_version TVal.other v = (TVal.other, false))
    ∧ (∀ (s g a v : String),
        apply_library_version (TVal.str s) g a v
          = Except.ok (TVal.str (g ++ ":" ++ a ++ ":" ++ v)))
    ∧ (∀ (kvs : List (String × TVal)) (g a v : String),
        apply_library_version (TVal.inlineTable kvs) g a v
          = Except.ok (TVal.inlineTable (tableSet kvs "version" (TVal.str v))))
    ∧ (∀ (kvs : List (String × TVal)) (g a v : String),
        apply_library_version (TVal.table kvs) g a v
          = Except.ok (TVal.table (tableSet kvs "version" (TVal.str v))))
    ∧ (∀ (g a v : String),
        apply_library_version TVal.other g a v
          = Except.error (GvcError.tomlParsing "Unsupported library format for targeted update")) :=
  ⟨fun _ _ => rfl, fun _ _ => rfl, fun _ _ => rfl, fun _ => rfl,
   fun _ _ _ _ => rfl, fun _ _ _ _ => rfl, fun _ _ _ _ => rfl, fun _ _ _ => rfl⟩

/-- C3: the mutating library-section path
(DependencyUpdater::check_library_update) applies a fetched candidate
whenever it merely differs from the current version — there is no Version
Strategy upgrade check on this path. With the repository offering only
1.0.0 for a library currently at 2.0.0, the non-interactive run rewrites the
entry to the downgrade and reports it, even though is_newer and is_upgrade
both say it is not an upgrade; the read-only twin check_library_for_update
in the same file does guard with is_newer and reports nothing here. -/
theorem c3_library_update_missing_upgrade_guard :
    check_library_update (fun _ _ _ => Except.ok (some "1.0.0")) "lib"
        (TVal.str "com.example:lib:2.0.0") false ⟨false, false⟩ []
      = Except.ok (TVal.str "com.example:lib:1.0.0",
          some ⟨"2.0.0", "1.0.0"⟩, ⟨false, false⟩, [])
    ∧ is_newer "1.0.0" "2.0.0" = false
    ∧ is_upgrade "2.0.0" "1.0.0" = false
    ∧ check_library_for_update (fun _ _ _ => Except.ok (some "1.0.0"))
        (TVal.str "com.example:lib:2.0.0") false = Except.ok none :=
  ⟨rfl, by decide, by decide, rfl⟩

/-- C4: fetch_latest_version iterates the repositories in the given order; a
repository with a non-empty filter list none of whose patterns match the
group is skipped; the first repository yielding a non-empty version list
decides the result (later repositories are never merged in); an erroring,
failing or empty repository is passed over; the function never returns an
error; and when every repository is skipped, fails or is empty the result is
ok none. -/
theorem c4_fetch_latest_version_resolution :
    (∀ (regexMatch : String → String → Option Bool)
       (fetchRepo : String → Except GvcError (Option (List String)))
       (repo : GradleRepository) (rest : List GradleRepository) (group : String) (so : Bool),
      repo.group_filters ≠ [] →
      matches_filters regexMatch group repo.group_filters = false →
      fetch_latest_version regexMatch fetchRepo (repo :: rest) group so
        = fetch_latest_version regexMatch fetchRepo rest group so)
    ∧ (∀ (regexMatch : String → String → Option Bool)
       (fetchRepo : String → Except GvcError (Option (List String)))
       (repo : GradleRepository) (rest : List GradleRepository) (group : String) (so : Bool)
       (versions : List String),
      (repo.group_filters = [] ∨ matches_filters regexMatch group repo.group_filters = true) →
      fetchRepo repo.url = Except.ok (some versions) →
      versions ≠ [] →
      fetch_latest_version regexMatch fetchRepo (repo :: rest) group so
        = Except.ok (get_latest versions so))
    ∧ (∀ (regexMatch : String → String → Option Bool)
       (fetchRepo : String → Except GvcError (Option (List String)))
       (repo : GradleRepository) (rest : List GradleRepository) (group : String) (so : Bool),
      ((∃ e, fetchRepo repo.url = Except.error e)
        ∨ fetchRepo repo.url = Except.ok none
        ∨ fetchRepo repo.url = Except.ok (some [])) →
      fetch_latest_version regexMatch fetchRepo (repo :: rest) group so
        = fetch_latest_version regexMatch fetchRepo rest group so)
    ∧ (∀ (regexMatch : String → String → Option Bool)
       (fetchRepo : String → Except GvcError (Option (List String)))
       (repos : List GradleRepository) (group : String) (so : Bool),
      ∃ o, fetch_latest_version regexMatch fetchRepo repos group so = Except.ok o)
    ∧ (∀ (regexMatch : String → String → Option Bool)
       (fetchRepo : String → Except GvcError (Option (List String)))
       (repos : List GradleRepository) (group : String) (so : Bool),
      (∀ repo ∈ repos,
        (repo.group_filters ≠ [] ∧ matches_filters regexMatch group repo.group_filters = false)
        ∨ (∃ e, fetchRepo repo.url = Except.error e)
        ∨ fetchRepo repo.url = Except.ok none
        ∨ fetchRepo repo.url = Except.ok (some [])) →
      fetch_latest_version regexMatch fetchRepo repos group so = Except.ok none) := by
  refine ⟨?_, ?_, ?_, ?_, ?_⟩
  · intro rm fr repo rest group so h1 h2
    rw [fetch_latest_version, if_pos ⟨h1, by simp [h2]⟩]
  · intro rm fr repo rest group so versions hskip hfetch hne
    have hcond : ¬ (repo.group_filters ≠ [] ∧
        ¬ matches_filters rm group repo.group_filters) := by
      rcases hskip with h | h
      · exact fun hc => hc.1 h
      · exact fun hc => hc.2 (by simp [h])
    rw [fetch_latest_version, if_neg hcond, hfetch]
    simp [hne]
  · intro rm fr repo rest group so hfail
    by_cases hcond : repo.group_filters ≠ [] ∧
        ¬ matches_filters rm group repo.group_filters
    · rw [fetch_latest_version, if_pos hcond]
    · rw [fetch_latest_version, if_neg hcond]
      rcases hfail with ⟨e, h⟩ | h | h
      · rw [h]
      · rw [h]
      · rw [h]; simp
  · intro rm fr repos group so
    induction repos with
    | nil => exact ⟨none, rfl⟩
    | cons repo rest ih =>
      by_cases hcond : repo.group_filters ≠ [] ∧
          ¬ matches_filters rm group repo.group_filters
      · rw [fetch_latest_version, if_pos hcond]; exact ih
      · rw [fetch_latest_version, if_neg hcond]
        cases hfetch : fr repo.url with
        | error e => exact ih
        | ok o =>
          cases o with
          | none => exact ih
          | some versions =>
            by_cases hne : versions = []
            · simp only [hne]; simp; exact ih
            · exact ⟨get_latest versions so, by simp [hne]⟩
  · intro rm fr repos group so hall
    induction repos with
    | nil => rfl
    | cons repo rest ih =>
      have hrepo := hall repo (List.mem_cons_self repo rest)
      have step : fetch_latest_version rm fr (repo :: rest) group so
          = fetch_latest_version rm fr rest group so := by
        rcases hrepo with ⟨h1, h2⟩ | hfail
        · rw [fetch_latest_version, if_pos ⟨h1, by simp [h2]⟩]
        · by_cases hcond : repo.group_filters ≠ [] ∧
              ¬ matches_filters rm group repo.group_filters
          · rw [fetch_latest_version, if_pos hcond]
          · rw [fetch_latest_version, if_neg hcond]
            rcases hfail with ⟨e, h⟩ | h | h
            · rw [h]
            · rw [h]
            · rw [h]; simp
      rw [step]
      exact ih (fun r hr => hall r (List.mem_cons_of_mem repo hr))

/-- C4 witness: with a first repository whose filter list does not match
com.example and a second, unfiltered repository offering 1.0.0, resolution
skips the first and returns the second's result; with every repository
erroring, the result is ok none, not an error. -/
theorem c4_fetch_latest_version_resolution_witness :
    fetch_latest_version (fun _ _ => some false)
        (fun url => if url = "https://repo.example/m2"
          then Except.ok (some ["1.0.0"]) else Except.ok none)
        [⟨"Google", "https://google.example/m2", [".*google.*"]⟩,
         ⟨"Central", "https://repo.example/m2", []⟩]
        "com.example" false = Except.ok (some "1.0.0")
    ∧ fetch_latest_version (fun _ _ => some false)
        (fun _ => Except.error (GvcError.io "net"))
        [⟨"A", "https://a.example/m2", []⟩, ⟨"B", "https://b.example/m2", []⟩]
        "com.example" false = Except.ok none := by
  obtain ⟨ha, hb, _, _, he⟩ := c4_fetch_latest_version_resolution
  constructor
  · have h1 := ha (fun _ _ => some false)
      (fun url => if url = "https://repo.example/m2"
        then Except.ok (some ["1.0.0"]) else Except.ok none)
      ⟨"Google", "https://google.example/m2", [".*google.*"]⟩
      [⟨"Central", "https://repo.example/m2", []⟩]
      "com.example" false (by decide) (by decide)
    have h2 := hb (fun _ _ => some false)
      (fun url => if url = "https://repo.example/m2"
        then Except.ok (some ["1.0.0"]) else Except.ok none)
      ⟨"Central", "https://repo.example/m2", []⟩ []
      "com.example" false ["1.0.0"] (Or.inl rfl) rfl (by decide)
    rw [h1, h2]
    have hl : get_latest ["1.0.0"] false = some "1.0.0" := by decide
    rw [hl]
  · exact he (fun _ _ => some false) (fun _ => Except.error (GvcError.io "net"))
      [⟨"A", "https://a.example/m2", []⟩, ⟨"B", "https://b.example/m2", []⟩]
      "com.example" false
      (fun r _ => Or.inr (Or.inl ⟨GvcError.io "net", rfl⟩))

/-- C7 counterexample: in stable-only non-interactive targeted mode, with a
single available entry that is unstable and non-current, the auto-selection
does not pick "the first stable non-current entry" (there is none) and does
not yield an empty report — it falls through to the unstable entry and
applies it, so the selection does not respect stable_only as the claim
states. -/
theorem c7_counterexample_stable_only_fallback :
    select_default_version (fetch_versions_for_candidate ["2.0-alpha"] "1.0") true
      = some "2.0-alpha"
    ∧ (Version.parse "2.0-alpha").is_stable = false
    ∧ targeted_auto_report "lib" (fetch_versions_for_candidate ["2.0-alpha"] "1.0") true "1.0"
      = UpdateReport.empty.add_library_update "lib" "1.0" "2.0-alpha" :=
  ⟨by decide, by decide, rfl⟩

/-- C7 amended: non-interactive targeted auto-selection picks the first
stable non-current entry when stable_only is set and such an entry exists,
and otherwise (stable_only unset, or set with no stable non-current entry
available) the first non-current entry in list order; the selection is never
the current version; no selection, or a selection equal to the current
version, yields an empty report rather than an error. -/
theorem c7_auto_selection_amended :
    (∀ (entries : List VersionEntry),
      select_default_version entries false
        = (entries.find? (fun e => !e.is_current)).map VersionEntry.value)
    ∧ (∀ (entries : List VersionEntry) (e : VersionEntry),
      entries.find? (fun e => e.is_stable && !e.is_current) = some e →
      select_default_version entries true = some e.value)
    ∧ (∀ (entries : List VersionEntry),
      entries.find? (fun e => e.is_stable && !e.is_current) = none →
      select_default_version entries true
        = (entries.find? (fun e => !e.is_current)).map VersionEntry.value)
    ∧ (∀ (entries : List VersionEntry) (so : Bool) (v : String),
      select_default_version entries so = some v →
      ∃ e ∈ entries, e.value = v ∧ e.is_current = false)
    ∧ (∀ (available : List String) (current : String) (so : Bool) (v : String),
      select_default_version (fetch_versions_for_candidate available current) so = some v →
      v ≠ current)
    ∧ (∀ (name : String) (entries : List VersionEntry) (so : Bool) (current : String),
      targeted_auto_choice entries so current = none →
      targeted_auto_report name entries so current = UpdateReport.empty)
    ∧ (∀ (name : String) (entries : List VersionEntry) (so : Bool) (current v : String),
      targeted_auto_choice entries so current = some v →
      targeted_auto_report name entries so current
        = UpdateReport.empty.add_library_update name current v ∧ v ≠ current) := by
  have eqFalse : ∀ (entries : List VersionEntry),
      select_default_version entries false
        = (entries.find? (fun e => !e.is_current)).map VersionEntry.value := by
    intro entries; rw [select_default_version]; simp
  have eqTrueSome : ∀ (entries : List VersionEntry) (e : VersionEntry),
      entries.find? (fun e => e.is_stable && !e.is_current) = some e →
      select_default_version entries true = some e.value := by
    intro entries e h; rw [select_default_version]; simp [h]
  have eqTrueNone : ∀ (entries : List VersionEntry),
      entries.find? (fun e => e.is_stable && !e.is_current) = none →
      select_default_version entries true
        = (entries.find? (fun e => !e.is_current)).map VersionEntry.value := by
    intro entries h; rw [select_default_version]; simp [h]
  have fall : ∀ (entries : List VersionEntry) (v : String),
      (entries.find? (fun e => !e.is_current)).map VersionEntry.value = some v →
      ∃ e ∈ entries, e.value = v ∧ e.is_current = false := by
    intro entries v h2
    obtain ⟨e, hfind, hval⟩ := Option.map_eq_some'.1 h2
    have hp := List.find?_some hfind
    have hmem := List.mem_of_find?_eq_some hfind
    exact ⟨e, hmem, hval, by simpa using hp⟩
  have hsel : ∀ (entries : List VersionEntry) (so : Bool) (v : String),
      select_default_version entries so = some v →
      ∃ e ∈ entries, e.value = v ∧ e.is_current = false := by
    intro entries so v h
    cases so with
    | false =>
      rw [eqFalse] at h
      exact fall entries v h
    | true =>
      cases hfind : entries.find? (fun e => e.is_stable && !e.is_current) with
      | none =>
        rw [eqTrueNone entries hfind] at h
        exact fall entries v h
      | some e =>
        rw [eqTrueSome entries e hfind] at h
        have hp2 : e.is_stable = true ∧ e.is_current = false := by
          simpa using List.find?_some hfind
        exact ⟨e, List.mem_of_find?_eq_some hfind, Option.some.inj h, hp2.2⟩
  refine ⟨eqFalse, eqTrueSome, eqTrueNone, hsel, ?_, ?_, ?_⟩
  · intro available current so v h
    obtain ⟨e, hmem, hval, hcur⟩ := hsel _ so v h
    obtain ⟨raw, _, hraw⟩ := List.mem_map.1 hmem
    intro hvc
    rw [← hraw] at hval hcur
    simp only at hval hcur
    rw [← hval] at hvc
    rw [decide_eq_false_iff_not] at hcur
    exact hcur hvc.symm
  · intro name entries so current h
    rw [targeted_auto_report, h]
  · intro name entries so current v h
    constructor
    · rw [targeted_auto_report, h]
    · rw [targeted_auto_choice] at h
      cases hfind : select_default_version entries so with
      | none => rw [hfind] at h; cases h
      | some w =>
        rw [hfind] at h
        by_cases hw : w = current
        · simp [hw] at h
        · simp only [hw, if_neg, ite_false] at h
          simp only [Option.some.injEq] at h
          rw [← h]
          exact hw

/-- C7 witness: concrete discharges — stable-only selection picks the first
stable non-current entry when one exists; with none available it falls back
to the first non-current entry; a concrete selection is not the current
version; and a current-only entry list yields the empty report. -/
theorem c7_auto_selection_amended_witness :
    select_default_version
        [⟨"3.0-alpha", false, false⟩, ⟨"2.0.0", true, false⟩] true = some "2.0.0"
    ∧ select_default_version [⟨"2.0-beta", false, false⟩] true = some "2.0-beta"
    ∧ ("2.0.0" : String) ≠ "1.0"
    ∧ targeted_auto_report "lib" [⟨"1.0", true, true⟩] false "1.0" = UpdateReport.empty
    ∧ targeted_auto_report "lib" [⟨"2.0.0", true, false⟩] false "1.0"
        = UpdateReport.empty.add_library_update "lib" "1.0" "2.0.0" := by
  obtain ⟨_, h2, h3, _, h5, h6, h7⟩ := c7_auto_selection_amended
  refine ⟨h2 _ ⟨"2.0.0", true, false⟩ (by decide), ?_, ?_, ?_, ?_⟩
  · exact h3 [⟨"2.0-beta", false, false⟩] (by decide)
  · exact h5 ["2.0.0"] "1.0" false "2.0.0" (by decide)
  · exact h6 "lib" [⟨"1.0", true, true⟩] false "1.0" (by decide)
  · exact (h7 "lib" [⟨"2.0.0", true, false⟩] false "1.0" "2.0.0" (by decide)).1

/-- Folding the byte-size accumulator over a run of a one-byte character
adds the run length. -/
theorem foldl_utf8_replicate (c : Char) (hc : c.utf8Size = 1) (n acc : Nat) :
    List.foldl (fun t d => t + d.utf8Size) acc (List.replicate n c) = acc + n := by
  induction n generalizing acc with
  | zero => simp
  | succ k ih =>
    rw [List.replicate_succ, List.foldl_cons, ih, hc]
    omega

/-- The byte length of a run of n one-byte characters is n. -/
theorem utf8Len_replicate (c : Char) (hc : c.utf8Size = 1) (n : Nat) :
    utf8Len (String.mk (List.replicate n c)) = n := by
  have := foldl_utf8_replicate c hc n 0
  simpa [utf8Len] using this

/-- C8 counterexample: on a response body one byte over the 10MB ceiling,
the repository resolver rejects (errors out before parsing), but the
plugin-portal variant — which has its own copy of the metadata fetch rather
than delegating — happily parses the same oversized body and returns its
versions, so the size-ceiling rejection does not hold in both resolver
variants. -/
theorem c8_counterexample_plugin_fetch_unbounded :
    fetch_all_versions_from_repository
        (fun _ => some ⟨true, Except.ok (String.mk (List.replicate (MAX_METADATA_BYTES + 1) 'a'))⟩)
        (fun _ => some ["9.9.9"]) "https://repo1.maven.org/maven2" "com.example" "lib"
      = Except.error (GvcError.io "Maven metadata response exceeded 10MB limit")
    ∧ fetch_all_plugin_versions
        (fun _ => some ⟨true, Except.ok (String.mk (List.replicate (MAX_METADATA_BYTES + 1) 'a'))⟩)
        (fun _ => some ["9.9.9"]) "p" "p.gradle.plugin"
      = Except.ok (some ["9.9.9"]) := by
  constructor
  · have hlen := utf8Len_replicate ('a') (by decide) (MAX_METADATA_BYTES + 1)
    rw [fetch_all_versions_from_repository]
    simp only [hlen]
    have hgt : utf8Len (String.mk (List.replicate (MAX_METADATA_BYTES + 1) 'a'))
        > MAX_METADATA_BYTES := by rw [hlen]; omega
    simp [hgt]
  · rw [fetch_all_plugin_versions]
    simp

/-- C8 amended: the repository resolver rejects any successful response
whose body exceeds the 10MB ceiling with an error (which the
latest-version loop swallows as no versions from that source); the
plugin-identifier variant does map plugin id p to the coordinate
(group = p, artifact = p ++ ".gradle.plugin"), but it runs its own copy of
the metadata fetch with no size ceiling, so a successful parseable response
of any size yields its versions there. -/
theorem c8_size_ceiling_amended :
    (∀ (httpGet : String → Option HttpResponse)
       (parseMeta : String → Option (List String))
       (repo_url group artifact : String) (resp : HttpResponse) (body : String),
      httpGet (mavenMetadataUrl repo_url group artifact) = some resp →
      resp.statusSuccess = true →
      resp.body = Except.ok body →
      MAX_METADATA_BYTES < utf8Len body →
      fetch_all_versions_from_repository httpGet parseMeta repo_url group artifact
        = Except.error (GvcError.io "Maven metadata response exceeded 10MB limit"))
    ∧ (∀ (httpGet : String → Option HttpResponse)
       (parseMeta : String → Option (List String))
       (plugin_id : String) (so : Bool),
      fetch_latest_plugin_version httpGet parseMeta plugin_id so
        = match fetch_all_plugin_versions httpGet parseMeta plugin_id
            (plugin_id ++ ".gradle.plugin") with
          | Except.error e => Except.error e
          | Except.ok fetched => Except.ok (pluginLatestFrom fetched so))
    ∧ (∀ (httpGet : String → Option HttpResponse)
       (parseMeta : String → Option (List String))
       (group artifact : String) (resp : HttpResponse) (body : String)
       (versions : List String),
      httpGet (mavenMetadataUrl GRADLE_PLUGIN_PORTAL group artifact) = some resp →
      resp.statusSuccess = true →
      resp.body = Except.ok body →
      parseMeta body = some versions →
      fetch_all_plugin_versions httpGet parseMeta group artifact
        = Except.ok (some versions)) := by
  refine ⟨?_, ?_, ?_⟩
  · intro hg pm repo_url group artifact resp body h1 h2 h3 h4
    rw [fetch_all_versions_from_repository, h1]
    simp [h2, h3, h4]
  · intro hg pm plugin_id so
    rfl
  · intro hg pm group artifact resp body versions h1 h2 h3 h4
    rw [fetch_all_plugin_versions, h1]
    simp [h2, h3, h4]

/-- C8 witness: concrete discharge of the amended statement at an oversized
body — the repository fetch errors while the plugin fetch returns the parsed
versions, and the plugin-id mapping equation holds at a concrete id. -/
theorem c8_size_ceiling_amended_witness :
    fetch_all_versions_from_repository
        (fun _ => some ⟨true, Except.ok (String.mk (List.replicate (MAX_METADATA_BYTES + 1) 'b'))⟩)
        (fun _ => some ["1.2.3"]) "https://repo1.maven.org/maven2" "org.demo" "artifact"
      = Except.error (GvcError.io "Maven metadata response exceeded 10MB limit")
    ∧ fetch_all_plugin_versions
        (fun _ => some ⟨true, Except.ok (String.mk (List.replicate (MAX_METADATA_BYTES + 1) 'b'))⟩)
        (fun _ => some ["1.2.3"]) "org.demo.plugin" "org.demo.plugin.gradle.plugin"
      = Except.ok (some ["1.2.3"])
    ∧ fetch_latest_plugin_version (fun _ => none) (fun _ => none) "org.demo.plugin" false
      = match fetch_all_plugin_versions (fun _ => none) (fun _ => none) "org.demo.plugin"
          ("org.demo.plugin" ++ ".gradle.plugin") with
        | Except.error e => Except.error e
        | Except.ok fetched => Except.ok (pluginLatestFrom fetched false) := by
  obtain ⟨ha, hb, hc⟩ := c8_size_ceiling_amended
  have hlen : utf8Len (String.mk (List.replicate (MAX_METADATA_BYTES + 1) 'b'))
      = MAX_METADATA_BYTES + 1 := utf8Len_replicate ('b') (by decide) (MAX_METADATA_BYTES + 1)
  refine ⟨?_, ?_, hb (fun _ => none) (fun _ => none) "org.demo.plugin" false⟩
  · exact ha _ _ "https://repo1.maven.org/maven2" "org.demo" "artifact" _ _ rfl rfl rfl
      (by rw [hlen]; omega)
  · exact hc _ _ "org.demo.plugin" "org.demo.plugin.gradle.plugin" _ _ ["1.2.3"] rfl rfl rfl rfl

/-- A successful run of the alias loop never touches the libraries or
plugins sections and never adds library or plugin report entries. -/
theorem version_handler_loop_frame
    (fetchLib : String → String → Bool → Except GvcError (Option String))
    (so : Bool) (libs : List (String × TVal)) :
    ∀ (data : List (String × String)) (doc : TomlDoc) (report : UpdateReport)
      (st : Interaction) (ans : List String) (doc2 : TomlDoc) (rep2 : UpdateReport)
      (st2 : Interaction) (ans2 : List String),
    version_handler_loop fetchLib so libs data doc report st ans
      = Except.ok (doc2, rep2, st2, ans2) →
    doc2.libraries = doc.libraries ∧ doc2.plugins = doc.plugins
    ∧ rep2.library_updates = report.library_updates
    ∧ rep2.plugin_updates = report.plugin_updates := by
  intro data
  induction data with
  | nil =>
    intro doc report st ans doc2 rep2 st2 ans2 h
    rw [version_handler_loop] at h
    simp only [Except.ok.injEq, Prod.mk.injEq] at h
    obtain ⟨h1, h2, _, _⟩ := h
    rw [← h1, ← h2]
    exact ⟨rfl, rfl, rfl, rfl⟩
  | cons hd tl ih =>
    intro doc report st ans doc2 rep2 st2 ans2 h
    obtain ⟨key, cur⟩ := hd
    rw [version_handler_loop] at h
    repeat' split at h
    all_goals
      first
      | exact Except.noConfusion h
      | (obtain ⟨f1, f2, f3, f4⟩ := ih _ _ _ _ _ _ _ _ h
         exact ⟨by simpa [UpdateReport.add_version_update] using f1,
                by simpa [UpdateReport.add_version_update] using f2,
                by simpa [UpdateReport.add_version_update] using f3,
                by simpa [UpdateReport.add_version_update] using f4⟩)

/-- C5 counterexample: in a catalog whose first alias-referencing library has
no extractable coordinate, the representative the code uses is not the first
referencing library — both the version handler's find_map and the legacy
scan pass over lib1 (the first referencing entry) and take lib2's
coordinate, and the whole run then checks and updates the alias through
lib2, while the claim prescribes lib1 and its (nonexistent) coordinate. -/
theorem c5_counterexample_representative_not_first_referencing :
    specFirstReferencingLibrary
        [("lib1", TVal.table [("version", TVal.inlineTable [("ref", TVal.str "core")])]),
         ("lib2", TVal.inlineTable [("module", TVal.str "com.a:b"),
            ("version", TVal.inlineTable [("ref", TVal.str "core")])])] "core"
      = some ("lib1", TVal.table [("version", TVal.inlineTable [("ref", TVal.str "core")])])
    ∧ uses_version_ref
        (TVal.table [("version", TVal.inlineTable [("ref", TVal.str "core")])]) "core" = true
    ∧ extract_group_artifact
        (TVal.table [("version", TVal.inlineTable [("ref", TVal.str "core")])]) = none
    ∧ extract_library_details
        (TVal.table [("version", TVal.inlineTable [("ref", TVal.str "core")])]) = none
    ∧ vh_find_representative
        [("lib1", TVal.table [("version", TVal.inlineTable [("ref", TVal.str "core")])]),
         ("lib2", TVal.inlineTable [("module", TVal.str "com.a:b"),
            ("version", TVal.inlineTable [("ref", TVal.str "core")])])] "core"
      = some ("com.a", "b")
    ∧ legacy_find_representative
        [("lib1", TVal.table [("version", TVal.inlineTable [("ref", TVal.str "core")])]),
         ("lib2", TVal.inlineTable [("module", TVal.str "com.a:b"),
            ("version", TVal.inlineTable [("ref", TVal.str "core")])])] "core"
      = some ("com.a", "b")
    ∧ version_handler_update
        (fun g a _ => if g = "com.a" ∧ a = "b" then Except.ok (some "2.0") else Except.ok none)
        ⟨some [("core", TVal.str "1.0")],
         some [("lib1", TVal.table [("version", TVal.inlineTable [("ref", TVal.str "core")])]),
               ("lib2", TVal.inlineTable [("module", TVal.str "com.a:b"),
                  ("version", TVal.inlineTable [("ref", TVal.str "core")])])],
         none⟩ false ⟨false, false⟩ []
      = Except.ok
          (⟨some [("core", TVal.str "2.0")],
            some [("lib1", TVal.table [("version", TVal.inlineTable [("ref", TVal.str "core")])]),
                  ("lib2", TVal.inlineTable [("module", TVal.str "com.a:b"),
                     ("version", TVal.inlineTable [("ref", TVal.str "core")])])],
            none⟩,
           ⟨[("core", "1.0", "2.0")], [], []⟩, ⟨false, false⟩, []) :=
  ⟨rfl, rfl, rfl, rfl, rfl, rfl, rfl⟩

/-- C5 amended: the representative for an alias is the first library entry,
in enumeration order, that references the alias AND from which a coordinate
(library details) can be extracted — a referencing entry without one is
passed over; an alias no library references has no representative and its
loop step does nothing (no fetch, no change, no report entry); a successful
alias pass never touches the libraries or plugins sections and attributes
only version-category report entries; and on the spec's two-library
propagation scenario exactly the alias value changes, both ref entries stay
textually identical, and the report names the alias. -/
theorem c5_alias_handling_amended :
    (∀ (key : String), vh_find_representative [] key = none)
    ∧ (∀ (nm : String) (lv : TVal) (rest : List (String × TVal)) (key : String)
        (d : LibraryDetails),
      uses_version_ref lv key = true → extract_library_details lv = some d →
      vh_find_representative ((nm, lv) :: rest) key = some (d.group, d.artifact))
    ∧ (∀ (nm : String) (lv : TVal) (rest : List (String × TVal)) (key : String),
      uses_version_ref lv key = true → extract_library_details lv = none →
      vh_find_representative ((nm, lv) :: rest) key = vh_find_representative rest key)
    ∧ (∀ (nm : String) (lv : TVal) (rest : List (String × TVal)) (key : String),
      uses_version_ref lv key = false →
      vh_find_representative ((nm, lv) :: rest) key = vh_find_representative rest key)
    ∧ (∀ (libs : List (String × TVal)) (key : String),
      (∀ p ∈ libs, uses_version_ref p.2 key = false) →
      vh_find_representative libs key = none)
    ∧ (∀ (fetchLib : String → String → Bool → Except GvcError (Option String))
        (so : Bool) (libs : List (String × TVal)) (key cur : String)
        (rest : List (String × String)) (doc : TomlDoc) (report : UpdateReport)
        (st : Interaction) (ans : List String),
      vh_find_representative libs key = none →
      version_handler_loop fetchLib so libs ((key, cur) :: rest) doc report st ans
        = version_handler_loop fetchLib so libs rest doc report st ans)
    ∧ (∀ (fetchLib : String → String → Bool → Except GvcError (Option String))
        (doc : TomlDoc) (so : Bool) (st : Interaction) (ans : List String)
        (doc2 : TomlDoc) (rep2 : UpdateReport) (st2 : Interaction) (ans2 : List String),
      version_handler_update fetchLib doc so st ans = Except.ok (doc2, rep2, st2, ans2) →
      doc2.libraries = doc.libraries ∧ doc2.plugins = doc.plugins
      ∧ rep2.library_updates = [] ∧ rep2.plugin_updates = [])
    ∧ version_handler_update
        (fun g a _ => if g = "com.a" ∧ a = "a" then Except.ok (some "1.1") else Except.ok none)
        ⟨some [("core-version", TVal.str "1.0")],
         some [("lib-a", TVal.inlineTable [("module", TVal.str "com.a:a"),
                  ("version", TVal.inlineTable [("ref", TVal.str "core-version")])]),
               ("lib-b", TVal.inlineTable [("module", TVal.str "com.b:b"),
                  ("version", TVal.inlineTable [("ref", TVal.str "core-version")])])],
         none⟩ false ⟨false, false⟩ []
      = Except.ok
          (⟨some [("core-version", TVal.str "1.1")],
            some [("lib-a", TVal.inlineTable [("module", TVal.str "com.a:a"),
                     ("version", TVal.inlineTable [("ref", TVal.str "core-version")])]),
                  ("lib-b", TVal.inlineTable [("module", TVal.str "com.b:b"),
                     ("version", TVal.inlineTable [("ref", TVal.str "core-version")])])],
            none⟩,
           ⟨[("core-version", "1.0", "1.1")], [], []⟩, ⟨false, false⟩, []) := by
  refine ⟨fun _ => rfl, ?_, ?_, ?_, ?_, ?_, ?_, rfl⟩
  · intro nm lv rest key d h1 h2
    simp [vh_find_representative, List.findSome?_cons, h1, h2]
  · intro nm lv rest key h1 h2
    simp [vh_find_representative, List.findSome?_cons, h1, h2]
  · intro nm lv rest key h1
    simp [vh_find_representative, List.findSome?_cons, h1]
  · intro libs key hall
    induction libs with
    | nil => rfl
    | cons p rest ih =>
      have hp := hall p (List.mem_cons_self p rest)
      have hrest := ih (fun r hr => hall r (List.mem_cons_of_mem p hr))
      simp [vh_find_representative, List.findSome?_cons, hp] at hrest ⊢
      exact hrest
  · intro fetchLib so libs key cur rest doc report st ans h
    rw [version_handler_loop, h]
  · intro fetchLib doc so st ans doc2 rep2 st2 ans2 h
    cases hv : doc.versions with
    | none =>
      rw [version_handler_update] at h
      simp only [hv, Except.ok.injEq, Prod.mk.injEq] at h
      obtain ⟨h1, h2, _, _⟩ := h
      subst h1
      subst h2
      exact ⟨rfl, rfl, rfl, rfl⟩
    | some vs =>
      cases hl : doc.libraries with
      | none =>
        rw [version_handler_update] at h
        simp only [hv, hl, Except.ok.injEq, Prod.mk.injEq] at h
        obtain ⟨h1, h2, _, _⟩ := h
        subst h1
        subst h2
        exact ⟨hl, rfl, rfl, rfl⟩
      | some libs =>
        rw [version_handler_update] at h
        simp only [hv, hl] at h
        split at h
        next =>
          simp only [Except.ok.injEq, Prod.mk.injEq] at h
          obtain ⟨h1, h2, _, _⟩ := h
          subst h1
          subst h2
          exact ⟨hl, rfl, rfl, rfl⟩
        next =>
          obtain ⟨f1, f2, f3, f4⟩ :=
            version_handler_loop_frame _ so libs _ _ _ _ _ _ _ _ _ h
          exact ⟨f1.trans hl, f2, by simpa using f3, by simpa using f4⟩

/-- C5 witness: concrete discharges of the hypothesized parts — the
representative equations at a referencing entry with and without details,
at a non-referencing entry, on an unreferenced alias; the skipped loop step;
and the frame of a concrete successful run. -/
theorem c5_alias_handling_amended_witness :
    vh_find_representative
        [("lib", TVal.inlineTable [("module", TVal.str "com.x:y"),
           ("version", TVal.inlineTable [("ref", TVal.str "k")])])] "k"
      = some ("com.x", "y")
    ∧ vh_find_representative
        [("bad", TVal.table [("version", TVal.inlineTable [("ref", TVal.str "k")])])] "k"
      = vh_find_representative [] "k"
    ∧ vh_find_representative [("lib", TVal.str "com.x:y:1.0")] "k"
      = vh_find_representative [] "k"
    ∧ vh_find_representative [("lib", TVal.str "com.x:y:1.0")] "unused" = none
    ∧ version_handler_loop (fun _ _ _ => Except.ok none) false
        [("lib", TVal.str "com.x:y:1.0")] [("unused", "1.0")]
        ⟨some [("unused", TVal.str "1.0")], some [("lib", TVal.str "com.x:y:1.0")], none⟩
        UpdateReport.empty ⟨false, false⟩ []
      = version_handler_loop (fun _ _ _ => Except.ok none) false
        [("lib", TVal.str "com.x:y:1.0")] []
        ⟨some [("unused", TVal.str "1.0")], some [("lib", TVal.str "com.x:y:1.0")], none⟩
        UpdateReport.empty ⟨false, false⟩ []
    ∧ (⟨some [("unused", TVal.str "1.0")], some [("lib", TVal.str "com.x:y:1.0")],
          none⟩ : TomlDoc).libraries = some [("lib", TVal.str "com.x:y:1.0")] := by
  obtain ⟨_, h2, h3, h4, h5, h6, h7, _⟩ := c5_alias_handling_amended
  refine ⟨?_, ?_, ?_, ?_, ?_, ?_⟩
  · exact h2 "lib" _ [] "k"
      ⟨"com.x", "y", none, some "k"⟩ (by decide) rfl
  · exact h3 "bad" _ [] "k" (by decide) rfl
  · exact h4 "lib" _ [] "k" (by decide)
  · exact h5 [("lib", TVal.str "com.x:y:1.0")] "unused" (by intro p hp; fin_cases hp; decide)
  · exact h6 (fun _ _ _ => Except.ok none) false _ "unused" "1.0" [] _ UpdateReport.empty
      ⟨false, false⟩ []
      (h5 [("lib", TVal.str "com.x:y:1.0")] "unused" (by intro p hp; fin_cases hp; decide))
  · have := h7 (fun _ _ _ => Except.ok none)
      ⟨some [("unused", TVal.str "1.0")], some [("lib", TVal.str "com.x:y:1.0")], none⟩
      false ⟨false, false⟩ []
      ⟨some [("unused", TVal.str "1.0")], some [("lib", TVal.str "com.x:y:1.0")], none⟩
      UpdateReport.empty ⟨false, false⟩ [] rfl
    exact this.1

/-- C6: the catalog document is written back only after the whole pipeline
succeeds with a non-empty report: any error (user cancellation included)
leaves the on-disk document identical, an empty report leaves it identical,
a q or quit answer at a live confirmation prompt raises the cancellation
error, and on a concrete run where the second library prompt is answered
with q the whole operation aborts with user-cancellation and the document
bytes are unchanged — including the change already confirmed earlier in the
same run. -/
theorem c6_cancellation_no_partial_write :
    (∀ (fetchLib : String → String → Bool → Except GvcError (Option String))
       (fetchPlugin : String → Bool → Except GvcError (Option String))
       (file : TomlDoc) (so ia : Bool) (ans : List String) (e : GvcError),
      (run_update_version_catalog fetchLib fetchPlugin file so ia ans).1 = Except.error e →
      (run_update_version_catalog fetchLib fetchPlugin file so ia ans).2 = file)
    ∧ (∀ (fetchLib : String → String → Bool → Except GvcError (Option String))
       (fetchPlugin : String → Bool → Except GvcError (Option String))
       (file : TomlDoc) (so ia : Bool) (ans : List String) (report : UpdateReport),
      (run_update_version_catalog fetchLib fetchPlugin file so ia ans).1 = Except.ok report →
      report.is_empty = true →
      (run_update_version_catalog fetchLib fetchPlugin file so ia ans).2 = file)
    ∧ (∀ (rest : List String) (cat nm o n : String),
      Interaction.confirm ⟨true, false⟩ ("q" :: rest) cat nm o n
        = Except.error GvcError.userCancelled
      ∧ Interaction.confirm ⟨true, false⟩ ("quit" :: rest) cat nm o n
        = Except.error GvcError.userCancelled)
    ∧ run_update_version_catalog (fun _ _ _ => Except.ok (some "2.0"))
        (fun _ _ => Except.ok none)
        ⟨none, some [("libA", TVal.str "com.a:a:1.0"), ("libB", TVal.str "com.b:b:1.0")], none⟩
        false true ["y", "q"]
      = (Except.error GvcError.userCancelled,
         ⟨none, some [("libA", TVal.str "com.a:a:1.0"), ("libB", TVal.str "com.b:b:1.0")],
          none⟩) := by
  refine ⟨?_, ?_, ?_, rfl⟩
  · intro fl fp file so ia ans e h
    rw [run_update_version_catalog]
    cases hres : update_version_catalog fl fp file so ia ans with
    | error e2 => rfl
    | ok pr =>
      obtain ⟨docr, rep⟩ := pr
      rw [run_update_version_catalog, hres] at h
      exact Except.noConfusion h
  · intro fl fp file so ia ans report h h2
    rw [run_update_version_catalog]
    cases hres : update_version_catalog fl fp file so ia ans with
    | error e2 =>
      rw [run_update_version_catalog, hres] at h
    | ok pr =>
      obtain ⟨docr, rep⟩ := pr
      rw [run_update_version_catalog, hres] at h
      simp only [Except.ok.injEq] at h
      show (if rep.is_empty = true then file else docr) = file
      rw [h, if_pos h2]
  · intro rest cat nm o n
    exact ⟨rfl, rfl⟩

/-- C6 witness: concrete discharges — a run cancelled at the first prompt
leaves the document untouched, and a run that finds nothing to update (the
resolver returns no versions) succeeds with an empty report and also leaves
the document untouched. -/
theorem c6_cancellation_no_partial_write_witness :
    (run_update_version_catalog (fun _ _ _ => Except.ok (some "2.0"))
        (fun _ _ => Except.ok none)
        ⟨none, some [("lib", TVal.str "com.a:a:1.0")], none⟩ false true ["q"]).2
      = ⟨none, some [("lib", TVal.str "com.a:a:1.0")], none⟩
    ∧ (run_update_version_catalog (fun _ _ _ => Except.ok none)
        (fun _ _ => Except.ok none)
        ⟨none, some [("lib", TVal.str "com.a:a:1.0")], none⟩ false false []).2
      = ⟨none, some [("lib", TVal.str "com.a:a:1.0")], none⟩ := by
  obtain ⟨h1, h2, _, _⟩ := c6_cancellation_no_partial_write
  constructor
  · exact h1 (fun _ _ _ => Except.ok (some "2.0")) (fun _ _ => Except.ok none)
      ⟨none, some [("lib", TVal.str "com.a:a:1.0")], none⟩ false true ["q"]
      GvcError.userCancelled rfl
  · exact h2 (fun _ _ _ => Except.ok none) (fun _ _ => Except.ok none)
      ⟨none, some [("lib", TVal.str "com.a:a:1.0")], none⟩ false false []
      ⟨[], [], []⟩ rfl rfl

/-- C10: an empty or all-whitespace targeted-update pattern is rejected by
PatternMatcher::new with the validation error before any candidate
enumeration: the candidate-collection prefix of the targeted flow yields the
same validation error for every document. -/
theorem c10_empty_pattern_rejected (pattern : String) (h : rustTrim pattern = "") :
    pattern_matcher_new pattern
        = Except.error (GvcError.projectValidation "Filter pattern cannot be empty")
    ∧ ∀ (doc : TomlDoc), targeted_update_candidates doc pattern
        = Except.error (GvcError.projectValidation "Filter pattern cannot be empty") := by
  constructor
  · rw [pattern_matcher_new]; simp [h]
  · intro doc
    rw [targeted_update_candidates, pattern_matcher_new]
    simp [h]

/-- C10 witness: the three-space pattern trims to empty, so the matcher
constructor and the targeted candidate collection both reject it for any
document. -/
theorem c10_empty_pattern_rejected_witness :
    rustTrim "   " = ""
    ∧ pattern_matcher_new "   "
        = Except.error (GvcError.projectValidation "Filter pattern cannot be empty")
    ∧ targeted_update_candidates ⟨none, none, none⟩ "   "
        = Except.error (GvcError.projectValidation "Filter pattern cannot be empty") := by
  have h := c10_empty_pattern_rejected "   " (by decide)
  exact ⟨by decide, h.1, h.2 ⟨none, none, none⟩⟩

end Gvc

section SanityChecks

open Gvc

example : (Version.parse "1.0.0").parsed = VersionType.semantic ⟨1, 0, 0, [], []⟩ := by decide
example : (Version.parse "1.0").parsed = VersionType.numeric [1, 0] := by decide
example : (Version.parse "1.0-SNAPSHOT").parsed = VersionType.snapshot "1.0-SNAPSHOT" := by decide
example : (Version.parse "1.0.0-SNAPSHOT").parsed
    = VersionType.semantic ⟨1, 0, 0, [PreId.alphanum "SNAPSHOT"], []⟩ := by decide
example : Version.cmp (Version.parse "1.0.1") (Version.parse "1.0.0") = Ordering.gt := by decide
example : Version.cmp (Version.parse "1.0.0") (Version.parse "1.0.0-SNAPSHOT") = Ordering.gt := by decide
example : Version.cmp (Version.parse "1.0.0") (Version.parse "1.0") = Ordering.gt := by decide
example : (Version.parse "1.0.0").is_stable = true := by decide
example : (Version.parse "1.0.0-alpha").is_stable = false := by decide
example : (Version.parse "1.0.0-SNAPSHOT").is_stable = false := by decide
example : (Version.parse "2024.1.1").is_stable = true := by decide
example : get_latest ["1.0.0", "1.1.0-alpha", "1.0.1"] false = some "1.1.0-alpha" := by decide
example : get_latest ["1.0.0", "1.1.0-alpha", "1.0.1"] true = some "1.0.1" := by decide
example : is_newer "2.0" "1.0.0" = true := by decide

end SanityChecks
